import Mathlib

/-!
Formal model of the consensus-building core of the enterprise agentic AI
executive platform.

The definitions below are a shallow embedding of the Python sources
src/consensus/consensus_builder.py, src/executive_team_orchestrator.py and
src/executive_agents/base_executive.py.  Modelling conventions:

- Python floats are modelled as rationals; all arithmetic used by the core
  (comparisons, sums, division, min, max) is exact.
- Python dicts keyed by strings are modelled as insertion-ordered association
  lists, mirroring the insertion-ordered iteration of Python 3.7+ dicts.
- Async calls are modelled as plain function application: the orchestrator
  awaits every evaluation before it aggregates, so a round is a pure function
  of the per-executive behaviour functions.
- Pydantic range validation (Field ge/le) is modelled by explicit smart
  constructors returning Except; TypedDict construction performs no checks.
-/

/-- Levels of consensus among executives (enum ConsensusLevel). -/
inductive ConsensusLevel where
  | STRONG_CONSENSUS
  | GENERAL_CONSENSUS
  | MAJORITY_AGREEMENT
  | DIVIDED_OPINION
  | STRONG_DISAGREEMENT
  deriving DecidableEq, Repr

/-- The .value string of a ConsensusLevel enum member. -/
def ConsensusLevel.value : ConsensusLevel → String
  | .STRONG_CONSENSUS => ("strong_consensus")
  | .GENERAL_CONSENSUS => ("general_consensus")
  | .MAJORITY_AGREEMENT => ("majority_agreement")
  | .DIVIDED_OPINION => ("divided_opinion")
  | .STRONG_DISAGREEMENT => ("strong_disagreement")

/-- Methods for resolving conflicts between executives (enum ConflictResolutionMethod). -/
inductive ConflictResolutionMethod where
  | EVIDENCE_BASED
  | WEIGHTED_VOTING
  | DELPHI_METHOD
  | COMPROMISE
  | INTEGRATIVE
  | ESCALATION
  | STRUCTURED_DEBATE
  | DIALECTICAL_INQUIRY
  deriving DecidableEq, Repr

/-- The .value string of a ConflictResolutionMethod enum member. -/
def ConflictResolutionMethod.value : ConflictResolutionMethod → String
  | .EVIDENCE_BASED => ("evidence_based")
  | .WEIGHTED_VOTING => ("weighted_voting")
  | .DELPHI_METHOD => ("delphi_method")
  | .COMPROMISE => ("compromise")
  | .INTEGRATIVE => ("integrative")
  | .ESCALATION => ("escalation")
  | .STRUCTURED_DEBATE => ("structured_debate")
  | .DIALECTICAL_INQUIRY => ("dialectical_inquiry")

/-- A detected disagreement unit.  The Python source uses a plain dict; the
fields below are the union of the keys produced by the three detection passes
(the dict key "type" is rendered as the field ctype).  Fields a given pass does
not set keep their default. -/
structure Conflict where
  ctype : String
  description : String := ("")
  severity : String := ("")
  affected_executives : List String := []
  supporting_executives : List String := []
  opposing_executives : List String := []
  supporting_role : String := ("")
  opposing_role : String := ("")
  agreement_difference : ℚ := 0
  deriving DecidableEq, Repr

/-- Return value of _identify_conflicts: the full conflict list and the subset
flagged critical. -/
structure ConflictSet where
  all_conflicts : List Conflict
  critical_conflicts : List Conflict
  deriving DecidableEq, Repr

/-- ConsensusBuilder._determine_consensus_level: maps a support percentage to a
discrete consensus level via fixed thresholds. -/
def determine_consensus_level (support_percentage : ℚ) : ConsensusLevel :=
  if support_percentage ≥ 0.9 then ConsensusLevel.STRONG_CONSENSUS
  else if support_percentage ≥ 0.75 then ConsensusLevel.GENERAL_CONSENSUS
  else if support_percentage ≥ 0.6 then ConsensusLevel.MAJORITY_AGREEMENT
  else if support_percentage ≥ 0.4 then ConsensusLevel.DIVIDED_OPINION
  else ConsensusLevel.STRONG_DISAGREEMENT

/-- Rank of a consensus level, used to state monotonicity: higher rank means
stronger consensus. -/
def consensus_rank : ConsensusLevel → Nat
  | .STRONG_DISAGREEMENT => 0
  | .DIVIDED_OPINION => 1
  | .MAJORITY_AGREEMENT => 2
  | .GENERAL_CONSENSUS => 3
  | .STRONG_CONSENSUS => 4

/-- The method_effectiveness table of ConsensusBuilder._estimate_new_support.
Every enum member is a key of the Python dict, so the .get default 0.15 is
never consulted. -/
def method_effectiveness : ConflictResolutionMethod → ℚ
  | .EVIDENCE_BASED => 0.15
  | .WEIGHTED_VOTING => 0.20
  | .DELPHI_METHOD => 0.25
  | .COMPROMISE => 0.15
  | .INTEGRATIVE => 0.30
  | .ESCALATION => 0.05
  | .STRUCTURED_DEBATE => 0.20
  | .DIALECTICAL_INQUIRY => 0.25

/-- ConsensusBuilder._estimate_new_support: analytic estimate of the support
level after applying a resolution method. -/
def estimate_new_support (current_support : ℚ) (conflicts : ConflictSet)
    (resolution_method : ConflictResolutionMethod) : ℚ :=
  let base_improvement := method_effectiveness resolution_method
  let critical_conflict_count : ℚ := conflicts.critical_conflicts.length
  let conflict_penalty := min (0.05 * critical_conflict_count) 0.15
  let new_support := min 0.95 (current_support + base_improvement - conflict_penalty)
  max current_support new_support

/-- Number of conflicts whose "type" key equals t; this is the value
conflict_types.get(t, 0) computed by _select_resolution_method. -/
def count_conflict_type (conflicts : List Conflict) (t : String) : Nat :=
  (conflicts.filter (fun c => c.ctype == t)).length

/-- ConsensusBuilder._select_resolution_method: fixed priority selection of a
resolution method from the conflict profile. -/
def select_resolution_method (conflicts : ConflictSet) : ConflictResolutionMethod :=
  let n : ℚ := conflicts.all_conflicts.length
  if (count_conflict_type conflicts.all_conflicts ("shared_concern") : ℚ) > n / 2 then
    ConflictResolutionMethod.INTEGRATIVE
  else if 0 < count_conflict_type conflicts.all_conflicts ("polarized_opinion") then
    ConflictResolutionMethod.STRUCTURED_DEBATE
  else if 0 < count_conflict_type conflicts.all_conflicts ("role_based") then
    ConflictResolutionMethod.WEIGHTED_VOTING
  else
    ConflictResolutionMethod.EVIDENCE_BASED

/-- Record of an executive's participation in a decision (TypedDict
DecisionParticipation).  A TypedDict performs no runtime validation: the 0-1
ranges for the two weight fields are source comments only. -/
structure DecisionParticipation where
  executive_id : String
  executive_role : String
  participation_type : String
  contribution_weight : ℚ
  expertise_relevance : ℚ
  deriving DecidableEq, Repr

/-- Evaluation of an executive's position on a recommendation (pydantic model
ConsensusEvaluation).  The numeric fields carry Field(ge=0, le=1) validation in
the source; construction through that validation is modelled by
mk_consensus_evaluation below. -/
structure ConsensusEvaluation where
  recommendation_id : String
  evaluator_id : String
  evaluator_role : String
  agreement_level : ℚ
  concerns : List String := []
  suggestions : List String := []
  supporting_arguments : List String := []
  expertise_level : ℚ
  confidence : ℚ
  deriving DecidableEq, Repr

/-- Pydantic construction of a ConsensusEvaluation: Field(ge=0.0, le=1.0) on
agreement_level, expertise_level and confidence raises a ValidationError when a
value falls outside the range (pydantic checks fields in declaration order). -/
def mk_consensus_evaluation (recommendation_id evaluator_id evaluator_role : String)
    (agreement_level : ℚ) (concerns suggestions supporting_arguments : List String)
    (expertise_level confidence : ℚ) : Except String ConsensusEvaluation :=
  if agreement_level < 0 ∨ 1 < agreement_level then
    Except.error ("agreement_level outside the range 0-1")
  else if expertise_level < 0 ∨ 1 < expertise_level then
    Except.error ("expertise_level outside the range 0-1")
  else if confidence < 0 ∨ 1 < confidence then
    Except.error ("confidence outside the range 0-1")
  else
    Except.ok
      { recommendation_id := recommendation_id
        evaluator_id := evaluator_id
        evaluator_role := evaluator_role
        agreement_level := agreement_level
        concerns := concerns
        suggestions := suggestions
        supporting_arguments := supporting_arguments
        expertise_level := expertise_level
        confidence := confidence }

/-- Construction of a DecisionParticipation dict: a TypedDict is an ordinary
dict at runtime, so any values are accepted as given, with no range check. -/
def mk_decision_participation (executive_id executive_role participation_type : String)
    (contribution_weight expertise_relevance : ℚ) : DecisionParticipation :=
  { executive_id := executive_id
    executive_role := executive_role
    participation_type := participation_type
    contribution_weight := contribution_weight
    expertise_relevance := expertise_relevance }

/-- Return value of ConsensusBuilder._calculate_support_metrics. -/
structure SupportMetrics where
  weighted_support : ℚ
  unweighted_support : ℚ
  participation_rate : ℚ
  strong_support : Nat
  moderate_support : Nat
  neutral : Nat
  moderate_opposition : Nat
  strong_opposition : Nat
  deriving DecidableEq, Repr

/-- The all-zero metrics record returned for an empty evaluation set. -/
def zero_support_metrics : SupportMetrics :=
  { weighted_support := 0, unweighted_support := 0, participation_rate := 0,
    strong_support := 0, moderate_support := 0, neutral := 0,
    moderate_opposition := 0, strong_opposition := 0 }

/-- First participation record whose executive_id matches the evaluator, as
computed by next((p for p in participating_executives if ...), None). -/
def find_participation (participating_executives : List DecisionParticipation)
    (evaluator_id : String) : Option DecisionParticipation :=
  participating_executives.find? (fun p => p.executive_id == evaluator_id)

/-- Weight of a participation record: expertise_relevance times
contribution_weight. -/
def participation_weight (p : DecisionParticipation) : ℚ :=
  p.expertise_relevance * p.contribution_weight

/-- One evaluation handled by the accumulation loop of
_calculate_support_metrics: an evaluation with a matching participation record
adds agreement times weight to the weighted-agreement sum and the weight to the
total weight; an unmatched evaluation contributes to neither. -/
def weighted_sums_go (participating_executives : List DecisionParticipation) :
    List ConsensusEvaluation → ℚ × ℚ → ℚ × ℚ
  | [], acc => acc
  | e :: rest, acc =>
    match find_participation participating_executives e.evaluator_id with
    | some p =>
      weighted_sums_go participating_executives rest
        (acc.1 + e.agreement_level * participation_weight p,
         acc.2 + participation_weight p)
    | none => weighted_sums_go participating_executives rest acc

/-- The accumulation loop of _calculate_support_metrics: first component is
sum(weighted_agreements), second is total_weight. -/
def weighted_sums (evaluations : List ConsensusEvaluation)
    (participating_executives : List DecisionParticipation) : ℚ × ℚ :=
  weighted_sums_go participating_executives evaluations (0, 0)

/-- ConsensusBuilder._calculate_support_metrics. -/
def calculate_support_metrics (evaluations : List ConsensusEvaluation)
    (participating_executives : List DecisionParticipation) : SupportMetrics :=
  match evaluations with
  | [] => zero_support_metrics
  | _ :: _ =>
    let strong_support := (evaluations.filter (fun e => decide (e.agreement_level ≥ 0.8))).length
    let moderate_support := (evaluations.filter
      (fun e => decide (0.6 ≤ e.agreement_level ∧ e.agreement_level < 0.8))).length
    let neutral := (evaluations.filter
      (fun e => decide (0.4 ≤ e.agreement_level ∧ e.agreement_level < 0.6))).length
    let moderate_opposition := (evaluations.filter
      (fun e => decide (0.2 ≤ e.agreement_level ∧ e.agreement_level < 0.4))).length
    let strong_opposition := (evaluations.filter (fun e => decide (e.agreement_level < 0.2))).length
    let total_evaluations : ℚ := evaluations.length
    let unweighted_support :=
      if 0 < total_evaluations then (evaluations.map (fun e => e.agreement_level)).sum / total_evaluations
      else 0
    let sums := weighted_sums evaluations participating_executives
    let weighted_support := if 0 < sums.2 then sums.1 / sums.2 else unweighted_support
    let expected_participation : ℚ := participating_executives.length
    let participation_rate :=
      if 0 < expected_participation then total_evaluations / expected_participation else 1
    { weighted_support := weighted_support
      unweighted_support := unweighted_support
      participation_rate := participation_rate
      strong_support := strong_support
      moderate_support := moderate_support
      neutral := neutral
      moderate_opposition := moderate_opposition
      strong_opposition := strong_opposition }

/-- One entry of the concern_count dict of _identify_conflicts: keyed by the
lower-cased concern text, remembering the first literal spelling, the mention
count and the mentioning evaluators in order. -/
structure ConcernEntry where
  key : String
  concern : String
  count : Nat
  evaluators : List String
  deriving DecidableEq, Repr

/-- Record one concern mention in the concern_count dict (insertion-ordered
association list). -/
def add_concern (entries : List ConcernEntry) (concern : String) (evaluator_id : String) :
    List ConcernEntry :=
  match entries with
  | [] => [{ key := concern.toLower, concern := concern, count := 1, evaluators := [evaluator_id] }]
  | entry :: rest =>
    if entry.key = concern.toLower then
      { key := entry.key, concern := entry.concern, count := entry.count + 1,
        evaluators := entry.evaluators ++ [evaluator_id] } :: rest
    else
      entry :: add_concern rest concern evaluator_id

/-- The concern_count dict after the double loop over evaluations and their
concerns. -/
def concern_entries (evaluations : List ConsensusEvaluation) : List ConcernEntry :=
  evaluations.foldl
    (fun acc e => e.concerns.foldl (fun acc2 c => add_concern acc2 c e.evaluator_id) acc)
    []

/-- The shared_concern conflict built for one frequent concern; n is the total
number of evaluations. -/
def mk_shared_conflict (n : ℚ) (entry : ConcernEntry) : Conflict :=
  { ctype := ("shared_concern")
    description := entry.concern
    affected_executives := entry.evaluators
    severity := if (entry.count : ℚ) > n / 3 then ("medium") else ("low") }

/-- Shared-concern pass of _identify_conflicts: concerns mentioned by more than
one evaluator become conflicts; a mention count above half the evaluation set
size makes the same conflict critical. -/
def shared_concern_pass (evaluations : List ConsensusEvaluation) :
    List Conflict × List Conflict :=
  let n : ℚ := evaluations.length
  let frequent_concerns := (concern_entries evaluations).filter (fun v => decide (1 < v.count))
  (frequent_concerns.map (mk_shared_conflict n),
   (frequent_concerns.filter (fun v => decide ((v.count : ℚ) > n / 2))).map (mk_shared_conflict n))

/-- Polarization pass of _identify_conflicts: one polarized_opinion conflict
when both strong support (agreement at least 0.7) and strong opposition
(agreement at most 0.3) are present. -/
def polarization_pass (evaluations : List ConsensusEvaluation) :
    List Conflict × List Conflict :=
  let supportive := evaluations.filter (fun e => decide (e.agreement_level ≥ 0.7))
  let opposing := evaluations.filter (fun e => decide (e.agreement_level ≤ 0.3))
  if supportive ≠ [] ∧ opposing ≠ [] then
    let polarization_conflict : Conflict :=
      { ctype := ("polarized_opinion")
        description := ("Significant divide between supporting and opposing executives")
        supporting_executives := supportive.map (fun e => e.evaluator_id)
        opposing_executives := opposing.map (fun e => e.evaluator_id)
        severity :=
          if 1 < supportive.length ∧ 1 < opposing.length then ("high") else ("medium") }
    ([polarization_conflict],
     if polarization_conflict.severity = ("high") then [polarization_conflict] else [])
  else ([], [])

/-- Add one evaluation to the role_groups dict (insertion-ordered association
list from role to the evaluations holding it). -/
def role_group_add (groups : List (String × List ConsensusEvaluation))
    (e : ConsensusEvaluation) : List (String × List ConsensusEvaluation) :=
  match groups with
  | [] => [(e.evaluator_role, [e])]
  | (role, es) :: rest =>
    if role = e.evaluator_role then (role, es ++ [e]) :: rest
    else (role, es) :: role_group_add rest e

/-- The role_groups dict of _identify_role_conflicts. -/
def role_groups (evaluations : List ConsensusEvaluation) :
    List (String × List ConsensusEvaluation) :=
  evaluations.foldl role_group_add []

/-- Mean agreement level of a group of evaluations. -/
def avg_agreement (es : List ConsensusEvaluation) : ℚ :=
  (es.map (fun e => e.agreement_level)).sum / es.length

/-- The role_based conflict built for a pair of systematically disagreeing
roles. -/
def mk_role_conflict (role1 role2 : String) (avg_agreement1 avg_agreement2 : ℚ) : Conflict :=
  let supporting_role := if avg_agreement1 > avg_agreement2 then role1 else role2
  let opposing_role := if avg_agreement1 > avg_agreement2 then role2 else role1
  { ctype := ("role_based")
    description := ("Systematic disagreement between ") ++ supporting_role ++ (" and ")
      ++ opposing_role ++ (" roles")
    supporting_role := supporting_role
    opposing_role := opposing_role
    agreement_difference := |avg_agreement1 - avg_agreement2|
    severity := if |avg_agreement1 - avg_agreement2| > 0.6 then ("high") else ("medium") }

/-- ConsensusBuilder._identify_role_conflicts: for every pair of distinct roles
(ordered by the Python string comparison role1 < role2), emit a role_based
conflict when the mean agreement levels differ by more than 0.4. -/
def identify_role_conflicts (evaluations : List ConsensusEvaluation) : List Conflict :=
  let groups := role_groups evaluations
  if 1 < groups.length then
    groups.flatMap (fun g1 =>
      (groups.filter (fun g2 => decide (g1.1 < g2.1))).filterMap (fun g2 =>
        let avg_agreement1 := avg_agreement g1.2
        let avg_agreement2 := avg_agreement g2.2
        if |avg_agreement1 - avg_agreement2| > 0.4 then
          some (mk_role_conflict g1.1 g2.1 avg_agreement1 avg_agreement2)
        else none))
  else []

/-- ConsensusBuilder._identify_conflicts: union of the shared-concern,
polarization and role-based passes; fewer than two evaluations yield no
conflicts. -/
def identify_conflicts (evaluations : List ConsensusEvaluation) : ConflictSet :=
  if evaluations.length < 2 then { all_conflicts := [], critical_conflicts := [] }
  else
    let shared := shared_concern_pass evaluations
    let polarization := polarization_pass evaluations
    let role_conflicts := identify_role_conflicts evaluations
    { all_conflicts := shared.1 ++ polarization.1 ++ role_conflicts
      critical_conflicts := shared.2 ++ polarization.2
        ++ role_conflicts.filter (fun c => c.severity == ("high")) }

/-- Levels of confidence in a decision or recommendation (enum
DecisionConfidence in base_executive.py). -/
inductive DecisionConfidence where
  | VERY_LOW
  | LOW
  | MODERATE
  | HIGH
  | VERY_HIGH
  deriving DecidableEq, Repr

/-- Alternative option considered but not selected (RecommendationAlternative). -/
structure RecommendationAlternative where
  title : String
  description : String
  strengths : List String
  weaknesses : List String
  why_not_selected : String
  deriving DecidableEq, Repr

/-- Risk assessment for a recommendation (RiskAssessment). -/
structure RiskAssessment where
  risk_category : String
  likelihood : DecisionConfidence
  impact : DecisionConfidence
  risk_description : String
  mitigation_strategies : List String
  deriving DecidableEq, Repr

/-- Impact of a decision on a stakeholder group (StakeholderImpact); the
Literal impact_level is carried as its string. -/
structure StakeholderImpact where
  stakeholder_group : String
  impact_level : String
  impact_description : String
  confidence : DecisionConfidence
  mitigation_strategies : Option (List String) := none
  deriving DecidableEq, Repr

/-- Value stored under one key of the domain_specific_analyses dict.  Analyses
supplied by executives are opaque payloads; the three consensus annotations
written by _apply_resolution_method are represented structurally. -/
inductive AnalysisValue where
  | opaque_payload (payload : String)
  | consensus_modifications (integrated_suggestions : List String) (modification_note : String)
  | weighted_voting_adjustments (top_concerns_addressed : List String) (adjustment_note : String)
  | structured_debate_outcome (supporting_arguments : List String)
      (opposing_arguments : List String) (debate_outcome : String)
  deriving DecidableEq, Repr

/-- A formal recommendation from an executive agent (pydantic model
ExecutiveRecommendation).  The two Dict[str, Any]-valued fields are modelled as
insertion-ordered association lists; the implementation_timeline payload and
resource_requirements values are opaque strings since the consensus core never
reads them. -/
structure ExecutiveRecommendation where
  title : String
  summary : String := ("")
  detailed_description : String := ("")
  supporting_evidence : List String := []
  confidence : DecisionConfidence := DecisionConfidence.MODERATE
  alternatives_considered : List RecommendationAlternative := []
  risks : List RiskAssessment := []
  stakeholder_impacts : List StakeholderImpact := []
  resource_requirements : List (String × String) := []
  implementation_timeline : Option (List (String × String)) := none
  success_metrics : List String := []
  domain_specific_analyses : List (String × AnalysisValue) := []
  uncertainty_factors : List String := []
  framework_used : String := ("")
  deriving DecidableEq, Repr

/-- Assignment d[k] = v on an insertion-ordered string-keyed dict: replace in
place when the key exists, append otherwise. -/
def dict_insert (d : List (String × AnalysisValue)) (k : String) (v : AnalysisValue) :
    List (String × AnalysisValue) :=
  match d with
  | [] => [(k, v)]
  | (k0, v0) :: rest =>
    if k0 = k then (k, v) :: rest else (k0, v0) :: dict_insert rest k v

/-- Context handed to the decision framework (DecisionContext TypedDict, as
filled in by _prepare_decision_context).  The consensus builder threads it
through unread. -/
structure DecisionContext where
  problem_statement : String
  alternatives : List String := []
  constraints : List String := []
  organizational_values : List (String × String) := []
  available_data : List (String × String) := []
  stakeholders : List String := []
  complexity_level : Option String := none
  uncertainty_types : List String := []
  urgency : Int := 1
  importance : Int := 1
  deriving DecidableEq, Repr

/-- Add weight to one concern key of the weighted_concerns dict (keyed by the
literal concern string). -/
def add_weighted_concern (d : List (String × ℚ)) (concern : String) (weight : ℚ) :
    List (String × ℚ) :=
  match d with
  | [] => [(concern, weight)]
  | (c0, w0) :: rest =>
    if c0 = concern then (c0, w0 + weight) :: rest
    else (c0, w0) :: add_weighted_concern rest concern weight

/-- The weighted_concerns dict of the weighted-voting branch: each concern is
weighted by evaluator expertise times confidence, summed per concern text. -/
def weighted_concerns (evaluations : List ConsensusEvaluation) : List (String × ℚ) :=
  evaluations.foldl
    (fun acc e =>
      e.concerns.foldl (fun acc2 c => add_weighted_concern acc2 c (e.expertise_level * e.confidence)) acc)
    []

/-- Stable descending sort by weight, matching sorted(..., key=weight,
reverse=True) on the dict items. -/
def sort_concerns_by_weight (items : List (String × ℚ)) : List (String × ℚ) :=
  items.insertionSort (fun a b => b.2 ≤ a.2)

/-- ConsensusBuilder._apply_resolution_method: additive annotation of the
recommendation according to the selected method; recommendation.model_copy is
value copying and therefore implicit. -/
def apply_resolution_method (method : ConflictResolutionMethod)
    (recommendation : ExecutiveRecommendation) (evaluations : List ConsensusEvaluation)
    (conflicts : ConflictSet) (context : DecisionContext) : ExecutiveRecommendation :=
  match method with
  | ConflictResolutionMethod.INTEGRATIVE =>
    let all_suggestions := evaluations.flatMap (fun e => e.suggestions)
    if all_suggestions ≠ [] then
      let modification_note :=
        ("Modified to address concerns: ") ++ String.intercalate (", ") (all_suggestions.take 3)
          ++ (if 3 < all_suggestions.length then
                (" and ") ++ toString (all_suggestions.length - 3) ++ (" more")
              else (""))
      { recommendation with
          domain_specific_analyses :=
            dict_insert recommendation.domain_specific_analyses ("consensus_modifications")
              (AnalysisValue.consensus_modifications all_suggestions modification_note) }
    else recommendation
  | ConflictResolutionMethod.WEIGHTED_VOTING =>
    let top_concerns := (sort_concerns_by_weight (weighted_concerns evaluations)).take 2
    if top_concerns ≠ [] then
      { recommendation with
          domain_specific_analyses :=
            dict_insert recommendation.domain_specific_analyses ("weighted_voting_adjustments")
              (AnalysisValue.weighted_voting_adjustments (top_concerns.map (fun c => c.1))
                ("Recommendation adjusted to address highest-weighted concerns")) }
    else recommendation
  | ConflictResolutionMethod.STRUCTURED_DEBATE =>
    let supporting_args :=
      (evaluations.filter (fun e => decide (e.agreement_level ≥ 0.7))).flatMap
        (fun e => e.supporting_arguments)
    let opposing_args :=
      (evaluations.filter
        (fun e => decide (¬ e.agreement_level ≥ 0.7 ∧ e.agreement_level ≤ 0.3))).flatMap
        (fun e => e.concerns)
    { recommendation with
        domain_specific_analyses :=
          dict_insert recommendation.domain_specific_analyses ("structured_debate_outcome")
            (AnalysisValue.structured_debate_outcome supporting_args opposing_args
              ("Recommendation adjusted to acknowledge valid opposing points while maintaining core direction")) }
  | _ =>
    { recommendation with
        uncertainty_factors := recommendation.uncertainty_factors
          ++ [("Resolution requires additional evidence to address factual disagreements")] }

/-- Result of a consensus building process (pydantic model ConsensusOutcome);
the timestamp field is wall-clock metadata and is not modelled. -/
structure ConsensusOutcome where
  recommendation : ExecutiveRecommendation
  consensus_level : ConsensusLevel
  support_percentage : ℚ
  supporting_executives : List String
  opposing_executives : List String
  abstaining_executives : List String
  key_conflicts : List Conflict
  resolution_method : String
  modified_from_original : Bool := false
  modification_summary : Option String := none
  deriving DecidableEq, Repr

/-- ConsensusBuilder._create_consensus_outcome.  The three evaluator
classification lists are left empty by the source (its comment reads: would be
populated with actual executive IDs). -/
def create_consensus_outcome (recommendation : ExecutiveRecommendation)
    (support_metrics : SupportMetrics) (conflicts : ConflictSet)
    (resolution_method_description : String) (modified : Bool)
    (modification_summary : Option String) : ConsensusOutcome :=
  { recommendation := recommendation
    consensus_level := determine_consensus_level support_metrics.weighted_support
    support_percentage := support_metrics.weighted_support
    supporting_executives := []
    opposing_executives := []
    abstaining_executives := []
    key_conflicts := conflicts.critical_conflicts
    resolution_method := resolution_method_description
    modified_from_original := modified
    modification_summary := modification_summary }

/-- Configuration of a ConsensusBuilder (its constructor arguments). -/
structure ConsensusBuilder where
  consensus_threshold : ℚ := 0.7
  min_participation : ℚ := 0.5
  automatic_resolution_threshold : ℚ := 0.85
  deriving DecidableEq, Repr

/-- ConsensusBuilder.build_consensus: the single-round consensus computation.
The append of the outcome to the builder decision_history is performed by the
caller-side state threading in the orchestrator model. -/
def build_consensus (cb : ConsensusBuilder) (recommendation : ExecutiveRecommendation)
    (executive_evaluations : List ConsensusEvaluation) (decision_context : DecisionContext)
    (participating_executives : List DecisionParticipation) : ConsensusOutcome :=
  let support_metrics := calculate_support_metrics executive_evaluations participating_executives
  let conflicts := identify_conflicts executive_evaluations
  if support_metrics.weighted_support ≥ cb.consensus_threshold ∧ conflicts.critical_conflicts = [] then
    create_consensus_outcome recommendation support_metrics conflicts
      ("Direct consensus without conflict resolution") false none
  else if conflicts.all_conflicts ≠ [] then
    let resolution_method := select_resolution_method conflicts
    let modified_recommendation := apply_resolution_method resolution_method recommendation
      executive_evaluations conflicts decision_context
    let estimated_new_support := estimate_new_support support_metrics.weighted_support
      conflicts resolution_method
    { recommendation := modified_recommendation
      consensus_level := determine_consensus_level estimated_new_support
      support_percentage := estimated_new_support
      supporting_executives :=
        (executive_evaluations.filter (fun e => decide (e.agreement_level > 0.6))).map
          (fun e => e.evaluator_id)
      opposing_executives :=
        (executive_evaluations.filter (fun e => decide (e.agreement_level < 0.4))).map
          (fun e => e.evaluator_id)
      abstaining_executives :=
        (executive_evaluations.filter
          (fun e => decide (0.4 ≤ e.agreement_level ∧ e.agreement_level ≤ 0.6))).map
          (fun e => e.evaluator_id)
      key_conflicts := conflicts.critical_conflicts
      resolution_method := resolution_method.value
      modified_from_original := true
      modification_summary :=
        some (("Recommendation modified using ") ++ resolution_method.value ++ (" resolution")) }
  else
    create_consensus_outcome recommendation support_metrics conflicts
      ("Insufficient consensus without specific conflicts") false none

/-- Types of uncertainty (enum UncertaintyType in base_framework.py). -/
inductive UncertaintyType where
  | STATISTICAL
  | SCENARIO
  | RECOGNIZED_IGNORANCE
  | TOTAL_IGNORANCE
  deriving DecidableEq, Repr

/-- Complexity levels (enum ComplexityLevel in base_framework.py). -/
inductive ComplexityLevel where
  | SIMPLE
  | COMPLICATED
  | COMPLEX
  | CHAOTIC
  deriving DecidableEq, Repr

/-- Context for executive decision-making (ExecutiveContext TypedDict, as
filled in by _prepare_executive_context); dict-valued entries are opaque
association lists. -/
structure ExecutiveContext where
  query : String
  background_information : List (String × String) := []
  constraints : List String := []
  available_data : List (String × String) := []
  previous_decisions : List (String × String) := []
  organizational_priorities : List String := []
  relevant_metrics : List (String × String) := []
  deriving DecidableEq, Repr

/-- The dict returned by an executive from evaluate_recommendation; absent
keys are none and are replaced by the .get defaults of
_get_executive_evaluation. -/
structure EvaluationResult where
  agreement_level : Option ℚ := none
  concerns : Option (List String) := none
  suggestions : Option (List String) := none
  supporting_arguments : Option (List String) := none
  confidence : Option ℚ := none

/-- An executive agent (BaseExecutive): its identity plus its three abstract
behaviour methods, modelled as function fields. -/
structure Executive where
  name : String
  role : String
  analyze : ExecutiveContext → ExecutiveRecommendation
  evaluate_recommendation : ExecutiveRecommendation → EvaluationResult
  integrate_feedback : ExecutiveRecommendation → List ConsensusEvaluation → ExecutiveRecommendation

/-- Information about an executive team member (TeamMember TypedDict). -/
structure TeamMember where
  executive : Executive
  role_priority : List (String × Int)
  veto_rights : List String
  is_active : Bool

/-- Configuration for the executive team (pydantic model ExecutiveTeamConfig,
with its declared defaults).  max_resolution_attempts carries Field(ge=1). -/
structure ExecutiveTeamConfig where
  consensus_threshold : ℚ := 0.7
  min_executive_participation : ℚ := 0.6
  default_decision_framework : String := ("bayesian")
  max_resolution_attempts : Nat := 3
  human_escalation_threshold : ℚ := 0.3
  enable_veto : Bool := true
  log_decisions : Bool := true
  auto_select_framework : Bool := true
  deriving DecidableEq, Repr

/-- A registered decision framework; only its name is consulted by
make_decision. -/
structure Framework where
  name : String
  deriving DecidableEq, Repr

/-- The orchestrator state relevant to one decision: its configuration, the
executives registry (a dict keyed by executive name) and the frameworks
registry. -/
structure ExecutiveTeamOrchestrator where
  config : ExecutiveTeamConfig
  executives : List (String × TeamMember)
  frameworks : List (String × Framework)

/-- The consensus builder the orchestrator constructs from its configuration;
automatic_resolution_threshold keeps its default. -/
def orchestrator_builder (config : ExecutiveTeamConfig) : ConsensusBuilder :=
  { consensus_threshold := config.consensus_threshold
    min_participation := config.min_executive_participation
    automatic_resolution_threshold := 0.85 }

/-- The context dict of a DecisionRequest; the keys read by the two context
preparation helpers are modelled as fields with the .get defaults. -/
structure RequestContext where
  data : List (String × String) := []
  priorities : List String := []
  metrics : List (String × String) := []
  alternatives : List String := []
  org_values : List (String × String) := []
  stakeholders : List String := []
  deriving DecidableEq, Repr

/-- Request for a decision from the executive team (pydantic model
DecisionRequest); the deadline timestamp is not modelled. -/
structure DecisionRequest where
  query : String
  context : RequestContext := {}
  constraints : List String := []
  required_domains : List String := []
  urgency : Int := 1
  importance : Int := 1
  complexity_level : Option ComplexityLevel := none
  uncertainty_types : List UncertaintyType := []
  decision_id : String := ("")
  deriving Repr

/-- One entry of the selected-executives list built by
_select_relevant_executives: the executive together with its priority for this
decision. -/
structure SelectedExec where
  executive : Executive
  priority : Int

/-- Priority of one registry member for the requested domains: the maximum of
its role_priority values over the matching domains, starting from 0. -/
def max_domain_priority (domains : List String) (role_priority : List (String × Int)) : Int :=
  domains.foldl
    (fun mp d =>
      match (role_priority.find? (fun kv => kv.1 == d)).map (fun kv => kv.2) with
      | some p => max mp p
      | none => mp)
    0

/-- Stable descending sort by priority, matching selected.sort(key=priority,
reverse=True). -/
def sort_selected_by_priority (selected : List SelectedExec) : List SelectedExec :=
  selected.insertionSort (fun a b => b.priority ≤ a.priority)

/-- ExecutiveTeamOrchestrator._select_relevant_executives. -/
def select_relevant_executives (orch : ExecutiveTeamOrchestrator)
    (request : DecisionRequest) : List SelectedExec :=
  let domains := request.required_domains
  if domains = [] then
    (orch.executives.filter (fun m => m.2.is_active)).map
      (fun m => { executive := m.2.executive, priority := 5 })
  else
    let selected :=
      (orch.executives.filter (fun m => m.2.is_active)).filterMap (fun m =>
        let max_priority := max_domain_priority domains m.2.role_priority
        if 0 < max_priority then
          some ({ executive := m.2.executive, priority := max_priority } : SelectedExec)
        else none)
    let selected := sort_selected_by_priority selected
    if selected.isEmpty then
      match orch.executives.find? (fun m => m.2.is_active) with
      | some m => [{ executive := m.2.executive, priority := 1 }]
      | none => []
    else selected

/-- ExecutiveTeamOrchestrator._determine_lead_executive: the first (highest
priority) selected executive; an empty selection raises ValueError, modelled as
none. -/
def determine_lead_executive (selected_executives : List SelectedExec) : Option Executive :=
  selected_executives.head?.map (fun e => e.executive)

/-- ExecutiveTeamOrchestrator._select_decision_framework. -/
def select_decision_framework (orch : ExecutiveTeamOrchestrator)
    (request : DecisionRequest) : String :=
  if orch.config.auto_select_framework = false then orch.config.default_decision_framework
  else
    match request.complexity_level with
    | some ComplexityLevel.SIMPLE => ("eisenhower_matrix")
    | some ComplexityLevel.COMPLICATED => ("kepner_tregoe")
    | some ComplexityLevel.COMPLEX => ("cynefin")
    | some ComplexityLevel.CHAOTIC => ("ooda")
    | none =>
      if 4 ≤ request.urgency then ("ooda")
      else if 4 ≤ request.importance then ("mcda")
      else if request.uncertainty_types.contains UncertaintyType.STATISTICAL then ("bayesian")
      else orch.config.default_decision_framework

/-- frameworks.get(name, next(iter(frameworks.values()))): the named framework,
else the first registered one; none when the registry is empty (the Python
next() raises StopIteration there). -/
def get_framework (orch : ExecutiveTeamOrchestrator) (framework_name : String) :
    Option Framework :=
  match orch.frameworks.find? (fun kv => kv.1 == framework_name) with
  | some kv => some kv.2
  | none => orch.frameworks.head?.map (fun kv => kv.2)

/-- ExecutiveTeamOrchestrator._prepare_executive_context. -/
def prepare_executive_context (request : DecisionRequest) : ExecutiveContext :=
  { query := request.query
    background_information := request.context.data
    constraints := request.constraints
    available_data := request.context.data
    previous_decisions := []
    organizational_priorities := request.context.priorities
    relevant_metrics := request.context.metrics }

/-- ExecutiveTeamOrchestrator._prepare_decision_context. -/
def prepare_decision_context (request : DecisionRequest) : DecisionContext :=
  { problem_statement := request.query
    alternatives := request.context.alternatives
    constraints := request.constraints
    organizational_values := request.context.org_values
    available_data := request.context.data
    stakeholders := request.context.stakeholders
    complexity_level := request.complexity_level.map (fun c =>
      match c with
      | ComplexityLevel.SIMPLE => ("simple")
      | ComplexityLevel.COMPLICATED => ("complicated")
      | ComplexityLevel.COMPLEX => ("complex")
      | ComplexityLevel.CHAOTIC => ("chaotic"))
    uncertainty_types := request.uncertainty_types.map (fun u =>
      match u with
      | UncertaintyType.STATISTICAL => ("statistical")
      | UncertaintyType.SCENARIO => ("scenario")
      | UncertaintyType.RECOGNIZED_IGNORANCE => ("recognized_ignorance")
      | UncertaintyType.TOTAL_IGNORANCE => ("total_ignorance"))
    urgency := request.urgency
    importance := request.importance }

/-- ExecutiveTeamOrchestrator._get_executive_evaluation: wraps one executive
evaluation into a ConsensusEvaluation, applying the .get defaults and deriving
expertise from the selection priority. -/
def get_executive_evaluation (executive : Executive)
    (recommendation : ExecutiveRecommendation) (context : ExecutiveContext)
    (priority : Int) : ConsensusEvaluation :=
  let evaluation_result := executive.evaluate_recommendation recommendation
  let expertise_level : ℚ := min 1 ((priority : ℚ) / 5)
  { recommendation_id := recommendation.title
    evaluator_id := executive.name
    evaluator_role := executive.role
    agreement_level := evaluation_result.agreement_level.getD 0.5
    concerns := evaluation_result.concerns.getD []
    suggestions := evaluation_result.suggestions.getD []
    supporting_arguments := evaluation_result.supporting_arguments.getD []
    expertise_level := expertise_level
    confidence := evaluation_result.confidence.getD 0.7 }

/-- ExecutiveTeamOrchestrator._gather_evaluations: every selected executive
except the lead contributes one evaluation (the asyncio.gather preserves task
creation order). -/
def gather_evaluations (recommendation : ExecutiveRecommendation)
    (selected_executives : List SelectedExec) (lead_executive : Executive)
    (context : ExecutiveContext) : List ConsensusEvaluation :=
  (selected_executives.filter (fun e => e.executive.name != lead_executive.name)).map
    (fun e => get_executive_evaluation e.executive recommendation context e.priority)

/-- ExecutiveTeamOrchestrator._create_participation_records. -/
def create_participation_records (selected_executives : List SelectedExec)
    (lead_executive : Executive) (request : DecisionRequest) :
    List DecisionParticipation :=
  selected_executives.map (fun e =>
    let participation_type :=
      if e.executive.name = lead_executive.name then ("recommender") else ("reviewer")
    let contribution_weight : ℚ := min 1 ((e.priority : ℚ) / 5)
    let contribution_weight :=
      if participation_type = ("recommender") then max contribution_weight 0.8
      else contribution_weight
    { executive_id := e.executive.name
      executive_role := e.executive.role
      participation_type := participation_type
      contribution_weight := contribution_weight
      expertise_relevance := contribution_weight })

/-- Veto information returned by _check_for_vetos (a dict in the source; the
extra keys default to neutral values when no veto applies). -/
structure VetoResult where
  veto_applied : Bool
  veto_executive : String := ("")
  veto_role : String := ("")
  veto_domain : String := ("")
  agreement_level : ℚ := 0
  concerns : List String := []

/-- Keys of the domain_specific_analyses dict of a recommendation. -/
def recommendation_domains (r : ExecutiveRecommendation) : List String :=
  r.domain_specific_analyses.map (fun kv => kv.1)

/-- The registry scan of _check_for_vetos: first active member with veto
authority over some recommendation domain whose own evaluation reports
agreement below 0.2 produces the veto record. -/
def check_vetos_go (members : List (String × TeamMember)) (rec_domains : List String)
    (evaluations : List ConsensusEvaluation) : VetoResult :=
  match members with
  | [] => { veto_applied := false }
  | (name, member) :: rest =>
    if member.is_active = false then check_vetos_go rest rec_domains evaluations
    else if rec_domains.any (fun d => member.veto_rights.contains d) = false then
      check_vetos_go rest rec_domains evaluations
    else
      match evaluations.find?
          (fun e => e.evaluator_id == name && decide (e.agreement_level < 0.2)) with
      | some evaluation =>
        { veto_applied := true
          veto_executive := name
          veto_role := member.executive.role
          veto_domain := (rec_domains.filter (fun d => member.veto_rights.contains d)).headD ("")
          agreement_level := evaluation.agreement_level
          concerns := evaluation.concerns }
      | none => check_vetos_go rest rec_domains evaluations

/-- ExecutiveTeamOrchestrator._check_for_vetos. -/
def check_for_vetos (orch : ExecutiveTeamOrchestrator)
    (consensus_outcome : ConsensusOutcome) (evaluations : List ConsensusEvaluation) :
    VetoResult :=
  if orch.config.enable_veto = false then { veto_applied := false }
  else
    check_vetos_go orch.executives
      (recommendation_domains consensus_outcome.recommendation) evaluations

/-- The retry condition of make_decision: consensus_level.value is one of
divided_opinion or strong_disagreement. -/
def needs_resolution (level : ConsensusLevel) : Bool :=
  match level with
  | ConsensusLevel.DIVIDED_OPINION => true
  | ConsensusLevel.STRONG_DISAGREEMENT => true
  | _ => false

/-- Mutable state of the resolution while-loop of make_decision, together with
the outcomes appended to the consensus builder decision_history during this
run. -/
structure LoopState where
  evaluations : List ConsensusEvaluation
  consensus_outcome : ConsensusOutcome
  resolution_attempts : Nat
  builder_history : List ConsensusOutcome

/-- The resolution while-loop of make_decision (step 7).  The loop body rebuilds
the recommendation from the original primary recommendation and the current
evaluations, re-gathers evaluations and rebuilds consensus.  Fuel equal to
max_resolution_attempts - resolution_attempts bounds the iteration count: the
guard requires resolution_attempts < max_resolution_attempts and each pass
increments the counter, so fuel exhaustion coincides with guard failure and the
fuelled recursion computes exactly the while loop. -/
def resolution_loop (orch : ExecutiveTeamOrchestrator) (lead_executive : Executive)
    (selected_executives : List SelectedExec) (executive_context : ExecutiveContext)
    (decision_context : DecisionContext) (participating_execs : List DecisionParticipation)
    (primary_recommendation : ExecutiveRecommendation) :
    Nat → LoopState → LoopState
  | 0, st => st
  | fuel + 1, st =>
    if needs_resolution st.consensus_outcome.consensus_level = true
        ∧ st.resolution_attempts < orch.config.max_resolution_attempts then
      let updated_recommendation :=
        lead_executive.integrate_feedback primary_recommendation st.evaluations
      let evaluations := gather_evaluations updated_recommendation selected_executives
        lead_executive executive_context
      let consensus_outcome := build_consensus (orchestrator_builder orch.config)
        updated_recommendation evaluations decision_context participating_execs
      resolution_loop orch lead_executive selected_executives executive_context
        decision_context participating_execs primary_recommendation fuel
        { evaluations := evaluations
          consensus_outcome := consensus_outcome
          resolution_attempts := st.resolution_attempts + 1
          builder_history := st.builder_history ++ [consensus_outcome] }
    else st

/-- The decision_metrics dict of a DecisionOutcome. -/
structure DecisionMetrics where
  resolution_attempts : Nat
  final_support_percentage : ℚ
  veto_applied : Bool
  executive_count : Nat
  framework : String
  lead_executive : String

/-- Complete outcome of a decision process (pydantic model DecisionOutcome);
human_feedback stays at its default none and the timestamp is not modelled. -/
structure DecisionOutcome where
  decision_id : String
  query : String
  recommendation : ExecutiveRecommendation
  consensus : ConsensusOutcome
  participating_executives : List String
  selected_framework : String
  resolution_attempts : Nat
  decision_request : DecisionRequest
  escalated_to_human : Bool
  decision_metrics : DecisionMetrics

/-- Observable intermediate state of one make_decision run, exposed for the
theorems: the final DecisionOutcome plus the selection, evaluations,
participation records, pre-veto consensus and veto result it was assembled
from. -/
structure DecisionRun where
  selected_executives : List SelectedExec
  lead_executive : Executive
  evaluations : List ConsensusEvaluation
  participating_execs : List DecisionParticipation
  consensus_outcome : ConsensusOutcome
  resolution_attempts : Nat
  veto_result : VetoResult
  builder_history : List ConsensusOutcome
  outcome : DecisionOutcome

/-- Body of ExecutiveTeamOrchestrator.make_decision past the framework lookup
and lead determination (steps 3 through 10): a pure function of the
orchestrator, the request, the resolved framework and the lead executive.  The
builder_history field collects the outcomes build_consensus appended to the
consensus builder decision_history, one per consensus-building round. -/
def make_decision_with (orch : ExecutiveTeamOrchestrator) (request : DecisionRequest)
    (framework : Framework) (lead_executive : Executive) : DecisionRun :=
  let selected_executives := select_relevant_executives orch request
  let executive_context := prepare_executive_context request
  let decision_context := prepare_decision_context request
  let primary_recommendation := lead_executive.analyze executive_context
  let evaluations0 := gather_evaluations primary_recommendation selected_executives
    lead_executive executive_context
  let participating_execs := create_participation_records selected_executives
    lead_executive request
  let consensus0 := build_consensus (orchestrator_builder orch.config)
    primary_recommendation evaluations0 decision_context participating_execs
  let st := resolution_loop orch lead_executive selected_executives executive_context
    decision_context participating_execs primary_recommendation
    (orch.config.max_resolution_attempts - 1)
    { evaluations := evaluations0
      consensus_outcome := consensus0
      resolution_attempts := 1
      builder_history := [consensus0] }
  let human_escalated0 :=
    decide (st.consensus_outcome.support_percentage < orch.config.human_escalation_threshold)
  let veto_result := check_for_vetos orch st.consensus_outcome st.evaluations
  let human_escalated := human_escalated0 || veto_result.veto_applied
  { selected_executives := selected_executives
    lead_executive := lead_executive
    evaluations := st.evaluations
    participating_execs := participating_execs
    consensus_outcome := st.consensus_outcome
    resolution_attempts := st.resolution_attempts
    veto_result := veto_result
    builder_history := st.builder_history
    outcome :=
      { decision_id := request.decision_id
        query := request.query
        recommendation := st.consensus_outcome.recommendation
        consensus := st.consensus_outcome
        participating_executives :=
          selected_executives.map (fun e => e.executive.name)
        selected_framework := framework.name
        resolution_attempts := st.resolution_attempts
        decision_request := request
        escalated_to_human := human_escalated
        decision_metrics :=
          { resolution_attempts := st.resolution_attempts
            final_support_percentage := st.consensus_outcome.support_percentage
            veto_applied := veto_result.veto_applied
            executive_count := selected_executives.length
            framework := framework.name
            lead_executive := lead_executive.name } } }

/-- ExecutiveTeamOrchestrator.make_decision: resolve the framework and the lead
executive, then run the decision body; none where the source raises (no
executive available for this decision, or an empty frameworks registry). -/
def make_decision_run (orch : ExecutiveTeamOrchestrator) (request : DecisionRequest) :
    Option DecisionRun :=
  match get_framework orch (select_decision_framework orch request) with
  | none => none
  | some framework =>
    match determine_lead_executive (select_relevant_executives orch request) with
    | none => none
    | some lead_executive => some (make_decision_with orch request framework lead_executive)

/-- C4: the consensus-level classifier is a total deterministic function of the
support percentage with the fixed bands at 0.9, 0.75, 0.6 and 0.4, and it is
monotonically non-decreasing in the support percentage. -/
theorem consensus_level_classifier_spec (s t : ℚ) :
    (determine_consensus_level s = ConsensusLevel.STRONG_CONSENSUS ↔ 0.9 ≤ s)
    ∧ (determine_consensus_level s = ConsensusLevel.GENERAL_CONSENSUS ↔ 0.75 ≤ s ∧ s < 0.9)
    ∧ (determine_consensus_level s = ConsensusLevel.MAJORITY_AGREEMENT ↔ 0.6 ≤ s ∧ s < 0.75)
    ∧ (determine_consensus_level s = ConsensusLevel.DIVIDED_OPINION ↔ 0.4 ≤ s ∧ s < 0.6)
    ∧ (determine_consensus_level s = ConsensusLevel.STRONG_DISAGREEMENT ↔ s < 0.4)
    ∧ (s ≤ t →
        consensus_rank (determine_consensus_level s) ≤ consensus_rank (determine_consensus_level t)) := by
  unfold determine_consensus_level
  refine ⟨?_, ?_, ?_, ?_, ?_, ?_⟩
  · split_ifs with h1 h2 h3 h4 <;> simp_all <;> linarith
  · split_ifs with h1 h2 h3 h4 <;> simp_all <;> intro h <;> linarith
  · split_ifs with h1 h2 h3 h4 <;> simp_all <;> intro h <;> linarith
  · split_ifs with h1 h2 h3 h4 <;> simp_all <;> intro h <;> linarith
  · split_ifs with h1 h2 h3 h4 <;> simp_all <;> linarith
  · intro hst
    split_ifs with h1 h2 h3 h4 h5 h6 h7 h8 <;> simp_all [consensus_rank] <;> linarith

/-- Witness for C4 at support values 0.5 and 0.7: the classifier does not
decrease between them. -/
theorem consensus_level_classifier_spec_witness :
    consensus_rank (determine_consensus_level 0.5)
      ≤ consensus_rank (determine_consensus_level 0.7) :=
  (consensus_level_classifier_spec 0.5 0.7).2.2.2.2.2 (by norm_num)

/-- C5: the estimated new support is the capped additive formula over the fixed
effectiveness table, floored at the current support; in particular it never
falls below the current support. -/
theorem estimate_new_support_spec (current_support : ℚ) (conflicts : ConflictSet)
    (m : ConflictResolutionMethod) :
    estimate_new_support current_support conflicts m
      = max current_support
          (min 0.95 (current_support + method_effectiveness m
            - min (0.05 * (conflicts.critical_conflicts.length : ℚ)) 0.15))
    ∧ method_effectiveness ConflictResolutionMethod.EVIDENCE_BASED = 0.15
    ∧ method_effectiveness ConflictResolutionMethod.WEIGHTED_VOTING = 0.20
    ∧ method_effectiveness ConflictResolutionMethod.DELPHI_METHOD = 0.25
    ∧ method_effectiveness ConflictResolutionMethod.COMPROMISE = 0.15
    ∧ method_effectiveness ConflictResolutionMethod.INTEGRATIVE = 0.30
    ∧ method_effectiveness ConflictResolutionMethod.ESCALATION = 0.05
    ∧ method_effectiveness ConflictResolutionMethod.STRUCTURED_DEBATE = 0.20
    ∧ method_effectiveness ConflictResolutionMethod.DIALECTICAL_INQUIRY = 0.25
    ∧ current_support ≤ estimate_new_support current_support conflicts m := by
  refine ⟨rfl, rfl, rfl, rfl, rfl, rfl, rfl, rfl, rfl, ?_⟩
  unfold estimate_new_support
  exact le_max_left _ _

/-- C6: the resolution-method selector follows the fixed priority order:
integrative when shared_concern conflicts outnumber half of all conflicts, else
structured_debate on any polarized_opinion conflict, else weighted_voting on
any role_based conflict, else evidence_based. -/
theorem select_resolution_method_priority (conflicts : ConflictSet) :
    ((count_conflict_type conflicts.all_conflicts ("shared_concern") : ℚ)
        > (conflicts.all_conflicts.length : ℚ) / 2 →
      select_resolution_method conflicts = ConflictResolutionMethod.INTEGRATIVE)
    ∧ (¬ ((count_conflict_type conflicts.all_conflicts ("shared_concern") : ℚ)
          > (conflicts.all_conflicts.length : ℚ) / 2) →
        0 < count_conflict_type conflicts.all_conflicts ("polarized_opinion") →
      select_resolution_method conflicts = ConflictResolutionMethod.STRUCTURED_DEBATE)
    ∧ (¬ ((count_conflict_type conflicts.all_conflicts ("shared_concern") : ℚ)
          > (conflicts.all_conflicts.length : ℚ) / 2) →
        count_conflict_type conflicts.all_conflicts ("polarized_opinion") = 0 →
        0 < count_conflict_type conflicts.all_conflicts ("role_based") →
      select_resolution_method conflicts = ConflictResolutionMethod.WEIGHTED_VOTING)
    ∧ (¬ ((count_conflict_type conflicts.all_conflicts ("shared_concern") : ℚ)
          > (conflicts.all_conflicts.length : ℚ) / 2) →
        count_conflict_type conflicts.all_conflicts ("polarized_opinion") = 0 →
        count_conflict_type conflicts.all_conflicts ("role_based") = 0 →
      select_resolution_method conflicts = ConflictResolutionMethod.EVIDENCE_BASED) := by
  unfold select_resolution_method
  refine ⟨?_, ?_, ?_, ?_⟩ <;> intros <;> split_ifs <;> simp_all <;> omega

/-- Witness for C6 on a conflict profile holding a single polarized_opinion
conflict: the selector picks structured_debate. -/
theorem select_resolution_method_priority_witness :
    select_resolution_method
        { all_conflicts := [{ ctype := ("polarized_opinion") }], critical_conflicts := [] }
      = ConflictResolutionMethod.STRUCTURED_DEBATE :=
  (select_resolution_method_priority
      { all_conflicts := [{ ctype := ("polarized_opinion") }], critical_conflicts := [] }).2.1
    (by
      have h : (("polarized_opinion") == ("shared_concern")) = false := by decide
      norm_num [count_conflict_type, List.filter, h])
    (by
      have h : (("polarized_opinion") == ("polarized_opinion")) = true := by decide
      norm_num [count_conflict_type, List.filter, h])

/-- Bounds on valid evaluation records: agreement levels lie in the unit
interval. -/
def evaluations_in_range (evaluations : List ConsensusEvaluation) : Prop :=
  ∀ e ∈ evaluations, 0 ≤ e.agreement_level ∧ e.agreement_level ≤ 1

/-- Bounds on valid participation records: both weight components lie in the
unit interval. -/
def participations_in_range (participating_executives : List DecisionParticipation) : Prop :=
  ∀ p ∈ participating_executives,
    0 ≤ p.expertise_relevance ∧ p.expertise_relevance ≤ 1
    ∧ 0 ≤ p.contribution_weight ∧ p.contribution_weight ≤ 1

/-- A participation weight of an in-range record lies in the unit interval. -/
theorem participation_weight_in_range (participating_executives : List DecisionParticipation)
    (hp : participations_in_range participating_executives)
    (p : DecisionParticipation) (hmem : p ∈ participating_executives) :
    0 ≤ participation_weight p ∧ participation_weight p ≤ 1 := by
  obtain ⟨h1, h2, h3, h4⟩ := hp p hmem
  constructor
  · exact mul_nonneg h1 h3
  · calc p.expertise_relevance * p.contribution_weight ≤ 1 * 1 := by
          exact mul_le_mul h2 h4 h3 (by norm_num)
      _ = 1 := by norm_num

/-- The accumulation loop preserves nonnegativity of the weighted-agreement sum
and its domination by the total weight. -/
theorem weighted_sums_go_bounds (participating_executives : List DecisionParticipation)
    (hp : participations_in_range participating_executives) :
    ∀ (evaluations : List ConsensusEvaluation), evaluations_in_range evaluations →
      ∀ acc : ℚ × ℚ, 0 ≤ acc.1 → acc.1 ≤ acc.2 →
        0 ≤ (weighted_sums_go participating_executives evaluations acc).1
        ∧ (weighted_sums_go participating_executives evaluations acc).1
            ≤ (weighted_sums_go participating_executives evaluations acc).2 := by
  intro evaluations
  induction evaluations with
  | nil => intro _ acc h1 h2; exact ⟨h1, h2⟩
  | cons e rest ih =>
    intro he acc h1 h2
    have he_head := he e (List.mem_cons_self e rest)
    have he_rest : evaluations_in_range rest := fun x hx => he x (List.mem_cons_of_mem e hx)
    simp only [weighted_sums_go]
    cases hfind : find_participation participating_executives e.evaluator_id with
    | none => exact ih he_rest acc h1 h2
    | some p =>
      have hmem : p ∈ participating_executives := List.mem_of_find?_eq_some hfind
      obtain ⟨hw0, hw1⟩ := participation_weight_in_range participating_executives hp p hmem
      refine ih he_rest _ ?_ ?_
      · have : 0 ≤ e.agreement_level * participation_weight p :=
          mul_nonneg he_head.1 hw0
        show 0 ≤ acc.1 + e.agreement_level * participation_weight p
        linarith
      · have : e.agreement_level * participation_weight p ≤ participation_weight p :=
          mul_le_of_le_one_left hw0 he_head.2
        show acc.1 + e.agreement_level * participation_weight p ≤ acc.2 + participation_weight p
        linarith

/-- The sum of agreement levels of in-range evaluations is nonnegative and at
most the number of evaluations. -/
theorem agreement_sum_bounds (evaluations : List ConsensusEvaluation)
    (he : evaluations_in_range evaluations) :
    0 ≤ (evaluations.map (fun e => e.agreement_level)).sum
    ∧ (evaluations.map (fun e => e.agreement_level)).sum ≤ (evaluations.length : ℚ) := by
  constructor
  · refine List.sum_nonneg ?_
    intro x hx
    obtain ⟨e, hmem, rfl⟩ := List.mem_map.mp hx
    exact (he e hmem).1
  · have h := List.sum_le_card_nsmul (evaluations.map (fun e => e.agreement_level)) 1 ?_
    · simpa [nsmul_eq_mul] using h
    · intro x hx
      obtain ⟨e, hmem, rfl⟩ := List.mem_map.mp hx
      exact (he e hmem).2

/-- C8: for in-range evaluations and participation records, the support
metrics calculator returns weighted and unweighted support in the unit
interval; the empty evaluation set yields the all-zero metrics record, and a
zero total matched weight makes the weighted support fall back to the
unweighted support. -/
theorem support_metrics_bounds (evaluations : List ConsensusEvaluation)
    (participating_executives : List DecisionParticipation)
    (he : evaluations_in_range evaluations)
    (hp : participations_in_range participating_executives) :
    (0 ≤ (calculate_support_metrics evaluations participating_executives).weighted_support
      ∧ (calculate_support_metrics evaluations participating_executives).weighted_support ≤ 1)
    ∧ (0 ≤ (calculate_support_metrics evaluations participating_executives).unweighted_support
      ∧ (calculate_support_metrics evaluations participating_executives).unweighted_support ≤ 1)
    ∧ (evaluations = [] →
        calculate_support_metrics evaluations participating_executives = zero_support_metrics)
    ∧ ((weighted_sums evaluations participating_executives).2 = 0 →
        (calculate_support_metrics evaluations participating_executives).weighted_support
          = (calculate_support_metrics evaluations participating_executives).unweighted_support) := by
  cases evaluations with
  | nil =>
    simp [calculate_support_metrics, zero_support_metrics]
  | cons e0 rest =>
    have hlen : (0 : ℚ) < ((e0 :: rest).length : ℚ) := by
      have : 0 < (e0 :: rest).length := List.length_pos_of_ne_nil (by simp)
      exact_mod_cast this
    obtain ⟨hsum0, hsum1⟩ := agreement_sum_bounds (e0 :: rest) he
    have hunw : 0 ≤ ((e0 :: rest).map (fun e => e.agreement_level)).sum / ((e0 :: rest).length : ℚ)
        ∧ ((e0 :: rest).map (fun e => e.agreement_level)).sum / ((e0 :: rest).length : ℚ) ≤ 1 := by
      constructor
      · exact div_nonneg hsum0 (le_of_lt hlen)
      · exact (div_le_one hlen).mpr hsum1
    obtain ⟨hws0, hws1⟩ := weighted_sums_go_bounds participating_executives hp (e0 :: rest) he
      (0, 0) (le_refl 0) (le_refl 0)
    have hwfrac : 0 < (weighted_sums (e0 :: rest) participating_executives).2 →
        0 ≤ (weighted_sums (e0 :: rest) participating_executives).1
            / (weighted_sums (e0 :: rest) participating_executives).2
        ∧ (weighted_sums (e0 :: rest) participating_executives).1
            / (weighted_sums (e0 :: rest) participating_executives).2 ≤ 1 := by
      intro hpos
      constructor
      · exact div_nonneg hws0 (le_of_lt hpos)
      · exact (div_le_one hpos).mpr hws1
    simp only [calculate_support_metrics]
    refine ⟨?_, ⟨?_, ?_⟩, by simp, ?_⟩
    · split_ifs with hpos
      · exact hwfrac hpos
      · exact hunw
    · simp only [if_pos hlen]
      exact hunw.1
    · simp only [if_pos hlen]
      exact hunw.2
    · intro hzero
      rw [hzero]
      simp

/-- Witness for C8 at one evaluation with agreement 0.5 and one matching
participation record with both weights 0.5. -/
theorem support_metrics_bounds_witness :
    0 ≤ (calculate_support_metrics
          [{ recommendation_id := ("r"), evaluator_id := ("a"), evaluator_role := ("ceo"),
             agreement_level := 0.5, expertise_level := 0.5, confidence := 0.5 }]
          [{ executive_id := ("a"), executive_role := ("ceo"),
             participation_type := ("reviewer"),
             contribution_weight := 0.5, expertise_relevance := 0.5 }]).weighted_support := by
  have h := support_metrics_bounds
    [{ recommendation_id := ("r"), evaluator_id := ("a"), evaluator_role := ("ceo"),
       agreement_level := 0.5, expertise_level := 0.5, confidence := 0.5 }]
    [{ executive_id := ("a"), executive_role := ("ceo"),
       participation_type := ("reviewer"),
       contribution_weight := 0.5, expertise_relevance := 0.5 }]
    (by intro e hmem; simp at hmem; subst hmem; norm_num)
    (by intro p hmem; simp at hmem; subst hmem; norm_num)
  exact h.1.1

/-- Every conflict emitted by the shared-concern pass carries the
shared_concern type tag. -/
theorem shared_pass_all_ctype (evaluations : List ConsensusEvaluation) :
    ∀ c ∈ (shared_concern_pass evaluations).1, c.ctype = ("shared_concern") := by
  intro c hc
  simp only [shared_concern_pass, List.mem_map] at hc
  obtain ⟨v, _, rfl⟩ := hc
  rfl

/-- Every critical conflict emitted by the shared-concern pass carries the
shared_concern type tag. -/
theorem shared_pass_crit_ctype (evaluations : List ConsensusEvaluation) :
    ∀ c ∈ (shared_concern_pass evaluations).2, c.ctype = ("shared_concern") := by
  intro c hc
  simp only [shared_concern_pass, List.mem_map] at hc
  obtain ⟨v, _, rfl⟩ := hc
  rfl

/-- Every conflict emitted by the role-based pass carries the role_based type
tag. -/
theorem role_conflicts_all_ctype (evaluations : List ConsensusEvaluation) :
    ∀ c ∈ identify_role_conflicts evaluations, c.ctype = ("role_based") := by
  intro c hc
  simp only [identify_role_conflicts] at hc
  split at hc
  · simp only [List.mem_flatMap, List.mem_filterMap] at hc
    obtain ⟨g1, _, g2, _, hmk⟩ := hc
    split at hmk
    · cases hmk
      rfl
    · cases hmk
  · cases hc

/-- The polarized_opinion conflict constructed by the polarization pass. -/
def polarization_conflict_of (evaluations : List ConsensusEvaluation) : Conflict :=
  let supportive := evaluations.filter (fun e => decide (e.agreement_level ≥ 0.7))
  let opposing := evaluations.filter (fun e => decide (e.agreement_level ≤ 0.3))
  { ctype := ("polarized_opinion")
    description := ("Significant divide between supporting and opposing executives")
    supporting_executives := supportive.map (fun e => e.evaluator_id)
    opposing_executives := opposing.map (fun e => e.evaluator_id)
    severity :=
      if 1 < supportive.length ∧ 1 < opposing.length then ("high") else ("medium") }

/-- Unfolding of the polarization pass in terms of the constructed conflict. -/
theorem polarization_pass_eq (evaluations : List ConsensusEvaluation) :
    polarization_pass evaluations =
      if (evaluations.filter (fun e => decide (e.agreement_level ≥ 0.7))) ≠ []
          ∧ (evaluations.filter (fun e => decide (e.agreement_level ≤ 0.3))) ≠ [] then
        ([polarization_conflict_of evaluations],
         if (polarization_conflict_of evaluations).severity = ("high")
         then [polarization_conflict_of evaluations] else [])
      else ([], []) := by
  simp only [polarization_pass, polarization_conflict_of]

/-- C7: on evaluation sets of size at least two the conflict detector emits
exactly one polarized_opinion conflict precisely when strong support (agreement
at least 0.7) and strong opposition (agreement at most 0.3) are both present;
its severity is high exactly when both camps have at least two members and
medium otherwise, and it is critical exactly when its severity is high. -/
theorem polarization_conflict_spec (evaluations : List ConsensusEvaluation)
    (h : 2 ≤ evaluations.length) :
    (((identify_conflicts evaluations).all_conflicts.filter
        (fun c => c.ctype == ("polarized_opinion"))).length
      = if (evaluations.filter (fun e => decide (e.agreement_level ≥ 0.7))) ≠ []
            ∧ (evaluations.filter (fun e => decide (e.agreement_level ≤ 0.3))) ≠ []
        then 1 else 0)
    ∧ ∀ c ∈ (identify_conflicts evaluations).all_conflicts,
        c.ctype = ("polarized_opinion") →
        (c.severity =
          (if 1 < (evaluations.filter (fun e => decide (e.agreement_level ≥ 0.7))).length
              ∧ 1 < (evaluations.filter (fun e => decide (e.agreement_level ≤ 0.3))).length
           then ("high") else ("medium")))
        ∧ (c ∈ (identify_conflicts evaluations).critical_conflicts ↔ c.severity = ("high")) := by
  have hguard : ¬ evaluations.length < 2 := by omega
  have hshared_ne : (("shared_concern") : String) ≠ ("polarized_opinion") := by decide
  have hrole_ne : (("role_based") : String) ≠ ("polarized_opinion") := by decide
  have hshared_nil :
      ((shared_concern_pass evaluations).1.filter
        (fun c => c.ctype == ("polarized_opinion"))) = [] := by
    refine List.filter_eq_nil_iff.mpr ?_
    intro c hc
    have := shared_pass_all_ctype evaluations c hc
    simp [this]
  have hrole_nil :
      ((identify_role_conflicts evaluations).filter
        (fun c => c.ctype == ("polarized_opinion"))) = [] := by
    refine List.filter_eq_nil_iff.mpr ?_
    intro c hc
    have := role_conflicts_all_ctype evaluations c hc
    simp [this]
  simp only [identify_conflicts, if_neg hguard]
  by_cases hso :
      (evaluations.filter (fun e => decide (e.agreement_level ≥ 0.7))) ≠ []
      ∧ (evaluations.filter (fun e => decide (e.agreement_level ≤ 0.3))) ≠ []
  · have hpol := polarization_pass_eq evaluations
    rw [if_pos hso] at hpol
    constructor
    · rw [hpol]
      simp only [List.filter_append, hshared_nil, hrole_nil, List.length_append,
        List.length_nil, if_pos hso]
      simp [polarization_conflict_of]
    · intro c hc hctype
      rw [hpol] at hc
      simp only [List.mem_append, List.mem_singleton] at hc
      rcases hc with (hc | hc) | hc
      · exact absurd ((shared_pass_all_ctype evaluations c hc).symm.trans hctype) hshared_ne
      · subst hc
        constructor
        · rfl
        · rw [hpol]
          constructor
          · intro hmem
            simp only [List.mem_append] at hmem
            rcases hmem with (hmem | hmem) | hmem
            · have hx := shared_pass_crit_ctype evaluations _ hmem
              simp [polarization_conflict_of] at hx
            · split at hmem
              · assumption
              · cases hmem
            · rcases List.mem_filter.mp hmem with ⟨hmem2, _⟩
              have hx := role_conflicts_all_ctype evaluations _ hmem2
              simp [polarization_conflict_of] at hx
          · intro hsev
            simp only [List.mem_append]
            left; right
            rw [if_pos hsev]
            exact List.mem_singleton.mpr rfl
      · exact absurd ((role_conflicts_all_ctype evaluations c hc).symm.trans hctype) hrole_ne
  · have hpol := polarization_pass_eq evaluations
    rw [if_neg hso] at hpol
    constructor
    · rw [hpol]
      simp only [List.filter_append, hshared_nil, hrole_nil, List.length_append,
        List.length_nil, if_neg hso]
      simp
    · intro c hc hctype
      rw [hpol] at hc
      simp only [List.mem_append, List.not_mem_nil] at hc
      rcases hc with (hc | hc) | hc
      · exact absurd ((shared_pass_all_ctype evaluations c hc).symm.trans hctype) hshared_ne
      · cases hc
      · exact absurd ((role_conflicts_all_ctype evaluations c hc).symm.trans hctype) hrole_ne

/-- Witness for C7 at the four-evaluator scenario with agreement levels 0.9,
0.9, 0.1, 0.1: exactly one polarized_opinion conflict is detected. -/
theorem polarization_conflict_spec_witness :
    (((identify_conflicts
        [{ recommendation_id := ("r"), evaluator_id := ("a"), evaluator_role := ("ceo"),
           agreement_level := 0.9, expertise_level := 1, confidence := 1 },
         { recommendation_id := ("r"), evaluator_id := ("b"), evaluator_role := ("ceo"),
           agreement_level := 0.9, expertise_level := 1, confidence := 1 },
         { recommendation_id := ("r"), evaluator_id := ("c"), evaluator_role := ("ceo"),
           agreement_level := 0.1, expertise_level := 1, confidence := 1 },
         { recommendation_id := ("r"), evaluator_id := ("d"), evaluator_role := ("ceo"),
           agreement_level := 0.1, expertise_level := 1, confidence := 1 }]).all_conflicts.filter
        (fun c => c.ctype == ("polarized_opinion"))).length = 1) := by
  have h := polarization_conflict_spec
    [{ recommendation_id := ("r"), evaluator_id := ("a"), evaluator_role := ("ceo"),
       agreement_level := 0.9, expertise_level := 1, confidence := 1 },
     { recommendation_id := ("r"), evaluator_id := ("b"), evaluator_role := ("ceo"),
       agreement_level := 0.9, expertise_level := 1, confidence := 1 },
     { recommendation_id := ("r"), evaluator_id := ("c"), evaluator_role := ("ceo"),
       agreement_level := 0.1, expertise_level := 1, confidence := 1 },
     { recommendation_id := ("r"), evaluator_id := ("d"), evaluator_role := ("ceo"),
       agreement_level := 0.1, expertise_level := 1, confidence := 1 }]
    (by simp)
  rw [h.1]
  norm_num [List.filter]
  exact ⟨by simp, by simp⟩

/-- Sample recommendation used by concrete consensus computations. -/
def sample_recommendation : ExecutiveRecommendation :=
  { title := ("Adopt the proposal") }

/-- Sample decision context used by concrete consensus computations. -/
def sample_decision_context : DecisionContext :=
  { problem_statement := ("Should we adopt the proposal") }

/-- Two concordant evaluations (agreement 0.9 each) producing direct
consensus. -/
def sample_direct_evaluations : List ConsensusEvaluation :=
  [{ recommendation_id := ("Adopt the proposal"), evaluator_id := ("alpha"),
     evaluator_role := ("cso"), agreement_level := 0.9, expertise_level := 1, confidence := 1 },
   { recommendation_id := ("Adopt the proposal"), evaluator_id := ("beta"),
     evaluator_role := ("cso"), agreement_level := 0.9, expertise_level := 1, confidence := 1 }]

/-- Participation records matching the two direct evaluators at full weight. -/
def sample_direct_participations : List DecisionParticipation :=
  [{ executive_id := ("alpha"), executive_role := ("cso"),
     participation_type := ("reviewer"), contribution_weight := 1, expertise_relevance := 1 },
   { executive_id := ("beta"), executive_role := ("cso"),
     participation_type := ("reviewer"), contribution_weight := 1, expertise_relevance := 1 }]

/-- C1 counterexample: on the direct-consensus path build_consensus returns an
empty supporting-executives list although an evaluator with agreement level
above 0.6 exists, so the evaluator-classification lists are not derived from
the agreement bands on every path. -/
theorem direct_path_lists_counterexample :
    (build_consensus {} sample_recommendation sample_direct_evaluations
        sample_decision_context sample_direct_participations).supporting_executives = []
    ∧ (∃ e ∈ sample_direct_evaluations, 0.6 < e.agreement_level)
    ∧ (build_consensus {} sample_recommendation sample_direct_evaluations
        sample_decision_context sample_direct_participations).resolution_method
      = ("Direct consensus without conflict resolution") := by
  have hab : (("alpha") == ("beta")) = false := rfl
  have haa : (("alpha") == ("alpha")) = true := rfl
  have hbb : (("beta") == ("beta")) = true := rfl
  have hba : (("beta") == ("alpha")) = false := rfl
  have hrole : (("cso") = ("cso")) ↔ True := by simp
  have hcond : (calculate_support_metrics sample_direct_evaluations
        sample_direct_participations).weighted_support ≥ (({} : ConsensusBuilder)).consensus_threshold
      ∧ (identify_conflicts sample_direct_evaluations).critical_conflicts = [] := by
    constructor
    · norm_num [calculate_support_metrics, weighted_sums, weighted_sums_go,
        find_participation, participation_weight, sample_direct_evaluations,
        sample_direct_participations, ConsensusBuilder.consensus_threshold, List.find?,
        hab, haa, hbb, hba]
    · norm_num [identify_conflicts, shared_concern_pass, concern_entries,
        polarization_pass, identify_role_conflicts, role_groups, role_group_add,
        sample_direct_evaluations, List.filter, List.foldl, hrole]
  constructor
  · simp only [build_consensus, if_pos hcond, create_consensus_outcome]
  constructor
  · exact ⟨sample_direct_evaluations.head (by simp [sample_direct_evaluations]),
      by simp [sample_direct_evaluations], by norm_num [sample_direct_evaluations]⟩
  · simp only [build_consensus, if_pos hcond, create_consensus_outcome]

/-- C1 amended: the evaluator-classification lists follow the agreement bands
(supporting above 0.6, opposing below 0.4, abstaining in between) exactly on
the conflict-resolution path, the one that marks the outcome as modified; on
the direct-consensus and insufficient-consensus-without-conflicts paths all
three lists are empty. -/
theorem build_consensus_band_lists (cb : ConsensusBuilder)
    (recommendation : ExecutiveRecommendation)
    (evaluations : List ConsensusEvaluation) (decision_context : DecisionContext)
    (participating_executives : List DecisionParticipation) :
    ((build_consensus cb recommendation evaluations decision_context
        participating_executives).modified_from_original = true →
      (build_consensus cb recommendation evaluations decision_context
          participating_executives).supporting_executives
        = (evaluations.filter (fun e => decide (e.agreement_level > 0.6))).map
            (fun e => e.evaluator_id)
      ∧ (build_consensus cb recommendation evaluations decision_context
          participating_executives).opposing_executives
        = (evaluations.filter (fun e => decide (e.agreement_level < 0.4))).map
            (fun e => e.evaluator_id)
      ∧ (build_consensus cb recommendation evaluations decision_context
          participating_executives).abstaining_executives
        = (evaluations.filter
            (fun e => decide (0.4 ≤ e.agreement_level ∧ e.agreement_level ≤ 0.6))).map
            (fun e => e.evaluator_id))
    ∧ ((build_consensus cb recommendation evaluations decision_context
        participating_executives).modified_from_original = false →
      (build_consensus cb recommendation evaluations decision_context
          participating_executives).supporting_executives = []
      ∧ (build_consensus cb recommendation evaluations decision_context
          participating_executives).opposing_executives = []
      ∧ (build_consensus cb recommendation evaluations decision_context
          participating_executives).abstaining_executives = []) := by
  simp only [build_consensus]
  split_ifs with h1 h2 <;>
    simp [create_consensus_outcome]

/-- One favourable and one strongly opposed evaluation, driving the
conflict-resolution path of build_consensus. -/
def sample_polarized_evaluations : List ConsensusEvaluation :=
  [{ recommendation_id := ("Adopt the proposal"), evaluator_id := ("alpha"),
     evaluator_role := ("cso"), agreement_level := 0.9, expertise_level := 1, confidence := 1 },
   { recommendation_id := ("Adopt the proposal"), evaluator_id := ("beta"),
     evaluator_role := ("cso"), agreement_level := 0.1, expertise_level := 1, confidence := 1 }]

/-- Participation records matching the two polarized evaluators at full
weight. -/
def sample_polarized_participations : List DecisionParticipation :=
  [{ executive_id := ("alpha"), executive_role := ("cso"),
     participation_type := ("reviewer"), contribution_weight := 1, expertise_relevance := 1 },
   { executive_id := ("beta"), executive_role := ("cso"),
     participation_type := ("reviewer"), contribution_weight := 1, expertise_relevance := 1 }]

/-- Witness for the amended C1 on the conflict-resolution path: the supporting
list is exactly the single evaluator above the 0.6 band. -/
theorem build_consensus_band_lists_witness :
    (build_consensus {} sample_recommendation sample_polarized_evaluations
        sample_decision_context sample_polarized_participations).supporting_executives
      = [("alpha")] := by
  have hab : (("alpha") == ("beta")) = false := rfl
  have haa : (("alpha") == ("alpha")) = true := rfl
  have hbb : (("beta") == ("beta")) = true := rfl
  have hba : (("beta") == ("alpha")) = false := rfl
  have hrole : (("cso") = ("cso")) ↔ True := by simp
  have hA : ¬ ((calculate_support_metrics sample_polarized_evaluations
        sample_polarized_participations).weighted_support
          ≥ (({} : ConsensusBuilder)).consensus_threshold
      ∧ (identify_conflicts sample_polarized_evaluations).critical_conflicts = []) := by
    intro hcontra
    have := hcontra.1
    norm_num [calculate_support_metrics, weighted_sums, weighted_sums_go,
      find_participation, participation_weight, sample_polarized_evaluations,
      sample_polarized_participations, ConsensusBuilder.consensus_threshold,
      List.find?, hab, haa, hbb, hba] at this
  have hB : (identify_conflicts sample_polarized_evaluations).all_conflicts ≠ [] := by
    norm_num [identify_conflicts, shared_concern_pass, concern_entries,
      polarization_pass, identify_role_conflicts, role_groups, role_group_add,
      sample_polarized_evaluations, List.filter, List.foldl, hrole]
  have hmod : (build_consensus {} sample_recommendation sample_polarized_evaluations
      sample_decision_context sample_polarized_participations).modified_from_original = true := by
    simp only [build_consensus, if_neg hA, if_pos hB]
  have h := (build_consensus_band_lists {} sample_recommendation sample_polarized_evaluations
    sample_decision_context sample_polarized_participations).1 hmod
  rw [h.1]
  norm_num [sample_polarized_evaluations, List.filter]

/-- C9 counterexample: a participation record with contribution weight and
expertise relevance 1.5 is accepted verbatim (the TypedDict performs no
validation) and flows into the support-metrics computation of a consensus
round instead of being rejected fast. -/
theorem participation_validation_counterexample :
    (mk_decision_participation ("cfo") ("CFO") ("reviewer") 1.5 1.5).contribution_weight = 1.5
    ∧ (mk_decision_participation ("cfo") ("CFO") ("reviewer") 1.5 1.5).expertise_relevance = 1.5
    ∧ (calculate_support_metrics
        [{ recommendation_id := ("Adopt the proposal"), evaluator_id := ("cfo"),
           evaluator_role := ("cfo"), agreement_level := 0.8,
           expertise_level := 1, confidence := 1 }]
        [mk_decision_participation ("cfo") ("CFO") ("reviewer") 1.5 1.5]).weighted_support
      = 0.8 := by
  have hcc : (("cfo") == ("cfo")) = true := rfl
  refine ⟨rfl, rfl, ?_⟩
  norm_num [calculate_support_metrics, weighted_sums, weighted_sums_go,
    find_participation, participation_weight, mk_decision_participation, List.find?, hcc]

/-- C9 amended: pydantic construction of an evaluation record fails exactly
when agreement level, expertise relevance or confidence falls outside the unit
interval, while TypedDict construction of a participation record accepts any
values unchecked. -/
theorem record_construction_validation (recommendation_id evaluator_id evaluator_role : String)
    (agreement_level : ℚ) (concerns suggestions supporting_arguments : List String)
    (expertise_level confidence : ℚ) :
    ((∃ msg, mk_consensus_evaluation recommendation_id evaluator_id evaluator_role
        agreement_level concerns suggestions supporting_arguments expertise_level confidence
        = Except.error msg)
      ↔ (agreement_level < 0 ∨ 1 < agreement_level ∨ expertise_level < 0 ∨ 1 < expertise_level
          ∨ confidence < 0 ∨ 1 < confidence))
    ∧ ∀ participation_type contribution_weight expertise_relevance,
        (mk_decision_participation evaluator_id evaluator_role participation_type
            contribution_weight expertise_relevance).contribution_weight = contribution_weight
        ∧ (mk_decision_participation evaluator_id evaluator_role participation_type
            contribution_weight expertise_relevance).expertise_relevance = expertise_relevance := by
  constructor
  · unfold mk_consensus_evaluation
    split_ifs with h1 h2 h3 <;> simp_all <;> tauto
  · intro participation_type contribution_weight expertise_relevance
    exact ⟨rfl, rfl⟩

/-- Invariants of the resolution while-loop: the builder history grows by one
outcome per round, the round counter never exceeds the configured maximum, and
on exit either the consensus level no longer needs resolution or the counter
has reached the maximum. -/
theorem resolution_loop_spec (orch : ExecutiveTeamOrchestrator) (lead_executive : Executive)
    (selected_executives : List SelectedExec) (executive_context : ExecutiveContext)
    (decision_context : DecisionContext) (participating_execs : List DecisionParticipation)
    (primary_recommendation : ExecutiveRecommendation) :
    ∀ (fuel : Nat) (st : LoopState),
      st.builder_history.length = st.resolution_attempts →
      st.resolution_attempts ≤ orch.config.max_resolution_attempts →
      orch.config.max_resolution_attempts ≤ fuel + st.resolution_attempts →
      (resolution_loop orch lead_executive selected_executives executive_context
          decision_context participating_execs primary_recommendation fuel st).builder_history.length
        = (resolution_loop orch lead_executive selected_executives executive_context
            decision_context participating_execs primary_recommendation fuel st).resolution_attempts
      ∧ (resolution_loop orch lead_executive selected_executives executive_context
          decision_context participating_execs primary_recommendation fuel st).resolution_attempts
        ≤ orch.config.max_resolution_attempts
      ∧ ¬ (needs_resolution (resolution_loop orch lead_executive selected_executives
            executive_context decision_context participating_execs primary_recommendation fuel
            st).consensus_outcome.consensus_level = true
          ∧ (resolution_loop orch lead_executive selected_executives executive_context
              decision_context participating_execs primary_recommendation fuel
              st).resolution_attempts < orch.config.max_resolution_attempts) := by
  intro fuel
  induction fuel with
  | zero =>
    intro st h1 h2 h3
    simp only [resolution_loop]
    refine ⟨h1, h2, ?_⟩
    intro hcontra
    omega
  | succ fuel ih =>
    intro st h1 h2 h3
    simp only [resolution_loop]
    split_ifs with hcond
    · refine ih _ ?_ ?_ ?_
      · simp [h1]
      · show st.resolution_attempts + 1 ≤ orch.config.max_resolution_attempts
        omega
      · show orch.config.max_resolution_attempts ≤ fuel + (st.resolution_attempts + 1)
        omega
    · exact ⟨h1, h2, hcond⟩

/-- A successful make_decision run factors through make_decision_with with a
resolved framework and lead executive. -/
theorem make_decision_run_some (orch : ExecutiveTeamOrchestrator) (request : DecisionRequest)
    (run : DecisionRun) (h : make_decision_run orch request = some run) :
    ∃ framework lead_executive,
      get_framework orch (select_decision_framework orch request) = some framework
      ∧ determine_lead_executive (select_relevant_executives orch request) = some lead_executive
      ∧ run = make_decision_with orch request framework lead_executive := by
  unfold make_decision_run at h
  cases hfw : get_framework orch (select_decision_framework orch request) with
  | none => rw [hfw] at h; cases h
  | some fw =>
    rw [hfw] at h
    cases hld : determine_lead_executive (select_relevant_executives orch request) with
    | none => rw [hld] at h; cases h
    | some lead =>
      rw [hld] at h
      exact ⟨fw, lead, rfl, rfl, (Option.some.inj h).symm⟩

/-- C3: every decision run performs at most max_resolution_attempts
consensus-building rounds in total (the builder history length equals the final
round counter, which is also reported in the outcome), and the retry loop exits
exactly when the consensus level no longer needs resolution or the counter has
reached the configured maximum. -/
theorem resolution_round_bound (orch : ExecutiveTeamOrchestrator) (request : DecisionRequest)
    (run : DecisionRun) (hmax : 1 ≤ orch.config.max_resolution_attempts)
    (hrun : make_decision_run orch request = some run) :
    run.builder_history.length = run.resolution_attempts
    ∧ run.outcome.resolution_attempts = run.resolution_attempts
    ∧ run.resolution_attempts ≤ orch.config.max_resolution_attempts
    ∧ ¬ (needs_resolution run.consensus_outcome.consensus_level = true
        ∧ run.resolution_attempts < orch.config.max_resolution_attempts) := by
  obtain ⟨fw, lead, hfw, hld, rfl⟩ := make_decision_run_some orch request run hrun
  have hloop := resolution_loop_spec orch lead (select_relevant_executives orch request)
    (prepare_executive_context request) (prepare_decision_context request)
    (create_participation_records (select_relevant_executives orch request) lead request)
    (lead.analyze (prepare_executive_context request))
    (orch.config.max_resolution_attempts - 1)
    { evaluations := gather_evaluations (lead.analyze (prepare_executive_context request))
        (select_relevant_executives orch request) lead (prepare_executive_context request)
      consensus_outcome := build_consensus (orchestrator_builder orch.config)
        (lead.analyze (prepare_executive_context request))
        (gather_evaluations (lead.analyze (prepare_executive_context request))
          (select_relevant_executives orch request) lead (prepare_executive_context request))
        (prepare_decision_context request)
        (create_participation_records (select_relevant_executives orch request) lead request)
      resolution_attempts := 1
      builder_history := [build_consensus (orchestrator_builder orch.config)
        (lead.analyze (prepare_executive_context request))
        (gather_evaluations (lead.analyze (prepare_executive_context request))
          (select_relevant_executives orch request) lead (prepare_executive_context request))
        (prepare_decision_context request)
        (create_participation_records (select_relevant_executives orch request) lead request)] }
    (by simp) hmax
    (by
      show orch.config.max_resolution_attempts ≤ (orch.config.max_resolution_attempts - 1) + 1
      omega)
  exact ⟨hloop.1, rfl, hloop.2.1, hloop.2.2⟩

/-- A minimal concrete executive: it always recommends the same proposal,
evaluates with a fixed agreement level, and returns recommendations unchanged
when integrating feedback. -/
def sample_exec (executive_name : String) (agreement : ℚ) : Executive :=
  { name := executive_name
    role := ("cso")
    analyze := fun _ => { title := ("Adopt the proposal") }
    evaluate_recommendation := fun _ => { agreement_level := some agreement }
    integrate_feedback := fun recommendation _ => recommendation }

/-- A one-executive orchestrator with a single registered framework and a
retry budget of one round. -/
def sample_orchestrator : ExecutiveTeamOrchestrator :=
  { config := { max_resolution_attempts := 1 }
    executives := [(("lead"),
      { executive := sample_exec ("lead") 0.9, role_priority := [],
        veto_rights := [], is_active := true })]
    frameworks := [(("bayesian"), { name := ("Bayesian") })] }

/-- A minimal decision request with no required domains. -/
def sample_request : DecisionRequest := { query := ("Should we adopt the proposal") }

/-- The sample orchestrator resolves its framework lookup. -/
theorem sample_framework_resolves :
    get_framework sample_orchestrator
        (select_decision_framework sample_orchestrator sample_request)
      = some { name := ("Bayesian") } := by
  have hb : (("bayesian") == ("bayesian")) = true := rfl
  norm_num [get_framework, select_decision_framework, sample_orchestrator, sample_request,
    List.find?, hb]

/-- The sample orchestrator resolves its lead executive. -/
theorem sample_lead_resolves :
    determine_lead_executive (select_relevant_executives sample_orchestrator sample_request)
      = some (sample_exec ("lead") 0.9) := by
  simp [determine_lead_executive, select_relevant_executives, sample_orchestrator,
    sample_request, List.filter]

/-- Witness for C3: the one-executive sample run completes within its retry
budget of one round. -/
theorem resolution_round_bound_witness :
    ∃ r, make_decision_run sample_orchestrator sample_request = some r
      ∧ r.resolution_attempts ≤ sample_orchestrator.config.max_resolution_attempts := by
  cases h : make_decision_run sample_orchestrator sample_request with
  | none =>
    exfalso
    unfold make_decision_run at h
    rw [sample_framework_resolves, sample_lead_resolves] at h
    cases h
  | some r =>
    exact ⟨r, rfl,
      (resolution_round_bound sample_orchestrator sample_request r
        (by norm_num [sample_orchestrator]) h).2.2.1⟩

/-- The registry scan of _check_for_vetos reports a veto exactly when some
member of the scanned list is active, holds veto rights over a recommendation
domain, and strongly opposes in its own evaluation. -/
theorem check_vetos_go_spec (rec_domains : List String)
    (evaluations : List ConsensusEvaluation) :
    ∀ members : List (String × TeamMember),
      ((check_vetos_go members rec_domains evaluations).veto_applied = true
        ↔ ∃ m ∈ members, m.2.is_active = true
            ∧ (∃ d ∈ rec_domains, d ∈ m.2.veto_rights)
            ∧ ∃ e ∈ evaluations, e.evaluator_id = m.1 ∧ e.agreement_level < 0.2) := by
  intro members
  induction members with
  | nil => simp [check_vetos_go]
  | cons head rest ih =>
    obtain ⟨name, member⟩ := head
    simp only [check_vetos_go]
    by_cases hact : member.is_active = false
    · rw [if_pos hact, ih]
      constructor
      · intro ⟨m, hm, hprops⟩
        exact ⟨m, List.mem_cons_of_mem _ hm, hprops⟩
      · intro ⟨m, hm, hprops⟩
        rcases List.mem_cons.mp hm with hm | hm
        · exfalso
          subst hm
          rw [hprops.1] at hact
          cases hact
        · exact ⟨m, hm, hprops⟩
    · rw [if_neg hact]
      have hact2 : member.is_active = true := by
        cases htmp : member.is_active
        · exact absurd htmp hact
        · rfl
      by_cases hauth : (rec_domains.any (fun d => member.veto_rights.contains d)) = false
      · rw [if_pos hauth, ih]
        have hnoauth : ¬ ∃ d ∈ rec_domains, d ∈ member.veto_rights := by
          intro ⟨d, hd, hdv⟩
          have : rec_domains.any (fun d => member.veto_rights.contains d) = true :=
            List.any_eq_true.mpr ⟨d, hd, by simpa using hdv⟩
          rw [hauth] at this
          cases this
        constructor
        · intro ⟨m, hm, hprops⟩
          exact ⟨m, List.mem_cons_of_mem _ hm, hprops⟩
        · intro ⟨m, hm, hprops⟩
          rcases List.mem_cons.mp hm with hm | hm
          · exfalso
            subst hm
            exact hnoauth hprops.2.1
          · exact ⟨m, hm, hprops⟩
      · rw [if_neg hauth]
        have hauth2 : ∃ d ∈ rec_domains, d ∈ member.veto_rights := by
          cases htmp : rec_domains.any (fun d => member.veto_rights.contains d)
          · exact absurd htmp hauth
          · obtain ⟨d, hd, hdv⟩ := List.any_eq_true.mp htmp
            exact ⟨d, hd, by simpa using hdv⟩
        cases hfind : evaluations.find?
            (fun e => e.evaluator_id == name && decide (e.agreement_level < 0.2)) with
        | some evaluation =>
          constructor
          · intro _
            have hmem := List.mem_of_find?_eq_some hfind
            have hpe := List.find?_some hfind
            simp only [Bool.and_eq_true, beq_iff_eq, decide_eq_true_eq] at hpe
            exact ⟨(name, member), List.mem_cons_self _ _,
              hact2, hauth2, evaluation, hmem, hpe.1, hpe.2⟩
          · intro _
            rfl
        | none =>
          rw [ih]
          have hnone : ¬ ∃ e ∈ evaluations, e.evaluator_id = name ∧ e.agreement_level < 0.2 := by
            intro ⟨e, he, hid, hlt⟩
            have := List.find?_eq_none.mp hfind e he
            simp only [Bool.and_eq_true, beq_iff_eq, decide_eq_true_eq, not_and] at this
            exact absurd hlt (this hid)
          constructor
          · intro ⟨m, hm, hprops⟩
            exact ⟨m, List.mem_cons_of_mem _ hm, hprops⟩
          · intro ⟨m, hm, hprops⟩
            rcases List.mem_cons.mp hm with hm | hm
            · exfalso
              subst hm
              exact hnone hprops.2.2
            · exact ⟨m, hm, hprops⟩

/-- C2: with veto enabled, the veto fires exactly when some active registry
member with veto rights in a domain of the final recommendation reports
agreement below 0.2; a fired veto forces the escalated_to_human flag, and the
consensus outcome carried into the decision outcome keeps its consensus level
and support percentage unchanged by the veto check. -/
theorem veto_spec (orch : ExecutiveTeamOrchestrator) (request : DecisionRequest)
    (run : DecisionRun) (hveto : orch.config.enable_veto = true)
    (hrun : make_decision_run orch request = some run) :
    (run.veto_result.veto_applied = true
      ↔ ∃ m ∈ orch.executives, m.2.is_active = true
          ∧ (∃ d ∈ recommendation_domains run.consensus_outcome.recommendation,
              d ∈ m.2.veto_rights)
          ∧ ∃ e ∈ run.evaluations, e.evaluator_id = m.1 ∧ e.agreement_level < 0.2)
    ∧ (run.veto_result.veto_applied = true → run.outcome.escalated_to_human = true)
    ∧ run.outcome.consensus = run.consensus_outcome
    ∧ run.outcome.consensus.consensus_level = run.consensus_outcome.consensus_level
    ∧ run.outcome.consensus.support_percentage = run.consensus_outcome.support_percentage := by
  obtain ⟨fw, lead, hfw, hld, rfl⟩ := make_decision_run_some orch request run hrun
  have hnotfalse : ¬ (orch.config.enable_veto = false) := by
    rw [hveto]
    intro hcontra
    cases hcontra
  refine ⟨?_, ?_, rfl, rfl, rfl⟩
  · show ((check_for_vetos orch
        (make_decision_with orch request fw lead).consensus_outcome
        (make_decision_with orch request fw lead).evaluations).veto_applied = true ↔ _)
    rw [check_for_vetos, if_neg hnotfalse]
    exact check_vetos_go_spec _ _ _
  · intro hv
    show (decide ((make_decision_with orch request fw lead).consensus_outcome.support_percentage
        < orch.config.human_escalation_threshold)
      || (check_for_vetos orch
            (make_decision_with orch request fw lead).consensus_outcome
            (make_decision_with orch request fw lead).evaluations).veto_applied) = true
    have hv2 : (check_for_vetos orch
        (make_decision_with orch request fw lead).consensus_outcome
        (make_decision_with orch request fw lead).evaluations).veto_applied = true := hv
    rw [hv2, Bool.or_true]

/-- A lead executive whose recommendation carries a risk domain analysis. -/
def veto_exec_lead : Executive :=
  { name := ("lead")
    role := ("cso")
    analyze := fun _ =>
      { title := ("Adopt the proposal")
        domain_specific_analyses := [(("risk"), AnalysisValue.opaque_payload ("assessment"))] }
    evaluate_recommendation := fun _ => { agreement_level := some 0.9 }
    integrate_feedback := fun recommendation _ => recommendation }

/-- An orchestrator whose second executive holds veto rights in the risk
domain and reports agreement 0.1. -/
def veto_orchestrator : ExecutiveTeamOrchestrator :=
  { config := { max_resolution_attempts := 1 }
    executives := [(("lead"),
      { executive := veto_exec_lead, role_priority := [], veto_rights := [], is_active := true }),
      (("risk_officer"),
      { executive := sample_exec ("risk_officer") 0.1, role_priority := [],
        veto_rights := [("risk")], is_active := true })]
    frameworks := [(("bayesian"), { name := ("Bayesian") })] }

/-- The veto orchestrator resolves its framework lookup. -/
theorem veto_framework_resolves :
    get_framework veto_orchestrator
        (select_decision_framework veto_orchestrator sample_request)
      = some { name := ("Bayesian") } := by
  have hb : (("bayesian") == ("bayesian")) = true := rfl
  norm_num [get_framework, select_decision_framework, veto_orchestrator, sample_request,
    List.find?, hb]

/-- The veto orchestrator resolves its lead executive. -/
theorem veto_lead_resolves :
    determine_lead_executive (select_relevant_executives veto_orchestrator sample_request)
      = some veto_exec_lead := by
  simp [determine_lead_executive, select_relevant_executives, veto_orchestrator,
    sample_request, List.filter]

/-- Witness for C2 on the veto scenario orchestrator: a fired veto forces
escalation and the decision outcome carries the loop consensus unchanged. -/
theorem veto_spec_witness :
    ∃ r, make_decision_run veto_orchestrator sample_request = some r
      ∧ (r.veto_result.veto_applied = true → r.outcome.escalated_to_human = true)
      ∧ r.outcome.consensus = r.consensus_outcome := by
  cases h : make_decision_run veto_orchestrator sample_request with
  | none =>
    exfalso
    unfold make_decision_run at h
    rw [veto_framework_resolves, veto_lead_resolves] at h
    cases h
  | some r =>
    have hv := veto_spec veto_orchestrator sample_request r rfl h
    exact ⟨r, rfl, hv.2.1, hv.2.2.1⟩

/-- No gathered evaluation carries the lead executive as evaluator. -/
theorem gather_evaluations_not_lead (recommendation : ExecutiveRecommendation)
    (selected_executives : List SelectedExec) (lead_executive : Executive)
    (context : ExecutiveContext) :
    ∀ e ∈ gather_evaluations recommendation selected_executives lead_executive context,
      e.evaluator_id ≠ lead_executive.name := by
  intro e he
  simp only [gather_evaluations, List.mem_map] at he
  obtain ⟨s, hs, rfl⟩ := he
  have hkeep := (List.mem_filter.mp hs).2
  simp only [bne_iff_ne, ne_eq] at hkeep
  exact hkeep

/-- A filter that drops some member of a list strictly shrinks it. -/
theorem filter_length_lt_of_mem_not {α : Type} (p : α → Bool) :
    ∀ (l : List α) (a : α), a ∈ l → p a = false → (l.filter p).length < l.length := by
  intro l
  induction l with
  | nil => intro a ha; cases ha
  | cons x xs ih =>
    intro a ha hpa
    rcases List.mem_cons.mp ha with rfl | ha
    · simp [List.filter_cons, hpa]
      have := List.length_filter_le p xs
      omega
    · have hlt := ih a ha hpa
      cases hpx : p x <;> simp only [List.filter_cons, hpx] <;> simp <;> omega

/-- Gathering skips the lead, so at most all-but-one of the selected
executives contribute evaluations. -/
theorem gather_evaluations_length (recommendation : ExecutiveRecommendation)
    (selected_executives : List SelectedExec) (lead_executive : Executive)
    (context : ExecutiveContext) (s0 : SelectedExec) (hs0 : s0 ∈ selected_executives)
    (hname : s0.executive.name = lead_executive.name) :
    (gather_evaluations recommendation selected_executives lead_executive context).length
      ≤ selected_executives.length - 1 := by
  simp only [gather_evaluations, List.length_map]
  have hlt := filter_length_lt_of_mem_not
    (fun e => e.executive.name != lead_executive.name) selected_executives s0 hs0
    (by simp [hname])
  omega

/-- The resolution loop only ever stores evaluation sets produced by
gather_evaluations over the same selected executives and lead. -/
theorem resolution_loop_evals_shape (orch : ExecutiveTeamOrchestrator)
    (lead_executive : Executive) (selected_executives : List SelectedExec)
    (executive_context : ExecutiveContext) (decision_context : DecisionContext)
    (participating_execs : List DecisionParticipation)
    (primary_recommendation : ExecutiveRecommendation) :
    ∀ (fuel : Nat) (st : LoopState),
      (∃ r, st.evaluations = gather_evaluations r selected_executives lead_executive
        executive_context) →
      ∃ r, (resolution_loop orch lead_executive selected_executives executive_context
          decision_context participating_execs primary_recommendation fuel st).evaluations
        = gather_evaluations r selected_executives lead_executive executive_context := by
  intro fuel
  induction fuel with
  | zero =>
    intro st h
    simpa [resolution_loop] using h
  | succ fuel ih =>
    intro st h
    simp only [resolution_loop]
    split_ifs with hcond
    · exact ih _ ⟨lead_executive.integrate_feedback primary_recommendation st.evaluations, rfl⟩
    · exact h

/-- Bound on the computed participation rate when at most n - 1 of n expected
participants produced evaluations. -/
theorem participation_rate_le (evaluations : List ConsensusEvaluation)
    (participating_executives : List DecisionParticipation) (n : Nat) (hn : 1 ≤ n)
    (hparts : participating_executives.length = n) (hlen : evaluations.length ≤ n - 1) :
    (calculate_support_metrics evaluations participating_executives).participation_rate
      ≤ ((n : ℚ) - 1) / (n : ℚ) := by
  have hnq : (0 : ℚ) < (n : ℚ) := by exact_mod_cast hn
  have hnum : (0 : ℚ) ≤ (n : ℚ) - 1 := by
    have : (1 : ℚ) ≤ (n : ℚ) := by exact_mod_cast hn
    linarith
  cases evaluations with
  | nil =>
    simp only [calculate_support_metrics, zero_support_metrics]
    positivity
  | cons e0 rest =>
    simp only [calculate_support_metrics]
    have hplen : (0 : ℚ) < (participating_executives.length : ℚ) := by
      rw [hparts]; exact hnq
    rw [if_pos hplen, hparts]
    rw [div_le_div_iff_of_pos_right hnq]
    have hcast : ((e0 :: rest).length : ℚ) ≤ ((n - 1 : ℕ) : ℚ) := by exact_mod_cast hlen
    have : ((n - 1 : ℕ) : ℚ) = (n : ℚ) - 1 := by
      rw [Nat.cast_sub hn, Nat.cast_one]
    linarith

/-- The lead executive is the head of the selected list. -/
theorem determine_lead_head (selected_executives : List SelectedExec)
    (lead_executive : Executive)
    (h : determine_lead_executive selected_executives = some lead_executive) :
    ∃ s ∈ selected_executives, s.executive = lead_executive := by
  cases selected_executives with
  | nil => simp [determine_lead_executive] at h
  | cons s rest =>
    simp only [determine_lead_executive, List.head?, Option.map_some] at h
    exact ⟨s, List.mem_cons_self _ _, Option.some.inj h⟩

/-- C10: in every completed decision run the lead executive receives a
recommender participation record but contributes no evaluation: the evaluation
set has at most n - 1 records for n selected executives, the computed
participation rate is at most (n - 1)/n, and a single selected executive
yields an empty evaluation set with all-zero support metrics. -/
theorem lead_excluded_spec (orch : ExecutiveTeamOrchestrator) (request : DecisionRequest)
    (run : DecisionRun) (hrun : make_decision_run orch request = some run) :
    (∃ p ∈ run.participating_execs,
        p.executive_id = run.lead_executive.name ∧ p.participation_type = ("recommender"))
    ∧ (∀ e ∈ run.evaluations, e.evaluator_id ≠ run.lead_executive.name)
    ∧ run.evaluations.length ≤ run.selected_executives.length - 1
    ∧ (calculate_support_metrics run.evaluations run.participating_execs).participation_rate
        ≤ ((run.selected_executives.length : ℚ) - 1) / (run.selected_executives.length : ℚ)
    ∧ (run.selected_executives.length = 1 →
        run.evaluations = []
        ∧ calculate_support_metrics run.evaluations run.participating_execs
          = zero_support_metrics) := by
  obtain ⟨fw, lead, hfw, hld, rfl⟩ := make_decision_run_some orch request run hrun
  obtain ⟨s, hsmem, hslead⟩ := determine_lead_head _ _ hld
  subst hslead
  obtain ⟨r, hevals⟩ := resolution_loop_evals_shape orch s.executive
    (select_relevant_executives orch request) (prepare_executive_context request)
    (prepare_decision_context request)
    (create_participation_records (select_relevant_executives orch request) s.executive request)
    (s.executive.analyze (prepare_executive_context request))
    (orch.config.max_resolution_attempts - 1)
    { evaluations := gather_evaluations
        (s.executive.analyze (prepare_executive_context request))
        (select_relevant_executives orch request) s.executive
        (prepare_executive_context request)
      consensus_outcome := build_consensus (orchestrator_builder orch.config)
        (s.executive.analyze (prepare_executive_context request))
        (gather_evaluations (s.executive.analyze (prepare_executive_context request))
          (select_relevant_executives orch request) s.executive
          (prepare_executive_context request))
        (prepare_decision_context request)
        (create_participation_records (select_relevant_executives orch request) s.executive request)
      resolution_attempts := 1
      builder_history := [build_consensus (orchestrator_builder orch.config)
        (s.executive.analyze (prepare_executive_context request))
        (gather_evaluations (s.executive.analyze (prepare_executive_context request))
          (select_relevant_executives orch request) s.executive
          (prepare_executive_context request))
        (prepare_decision_context request)
        (create_participation_records (select_relevant_executives orch request) s.executive
          request)] }
    ⟨s.executive.analyze (prepare_executive_context request), rfl⟩
  have hrun_evals : (make_decision_with orch request fw s.executive).evaluations
      = gather_evaluations r (select_relevant_executives orch request) s.executive
        (prepare_executive_context request) := hevals
  have hrun_sel : (make_decision_with orch request fw s.executive).selected_executives
      = select_relevant_executives orch request := rfl
  have hrun_parts : (make_decision_with orch request fw s.executive).participating_execs
      = create_participation_records (select_relevant_executives orch request)
          s.executive request := rfl
  have hrun_lead : (make_decision_with orch request fw s.executive).lead_executive
      = s.executive := rfl
  have hn1 : 1 ≤ (select_relevant_executives orch request).length :=
    List.length_pos_of_mem hsmem
  refine ⟨?_, ?_, ?_, ?_, ?_⟩
  · rw [hrun_parts, hrun_lead]
    refine ⟨_, List.mem_map.mpr ⟨s, hsmem, rfl⟩, ?_, ?_⟩
    · rfl
    · show (if s.executive.name = s.executive.name then ("recommender") else ("reviewer"))
        = ("recommender")
      rw [if_pos rfl]
  · rw [hrun_evals, hrun_lead]
    exact gather_evaluations_not_lead _ _ _ _
  · rw [hrun_evals, hrun_sel]
    exact gather_evaluations_length _ _ _ _ s hsmem rfl
  · rw [hrun_evals, hrun_sel, hrun_parts]
    refine participation_rate_le _ _ _ hn1 ?_ ?_
    · simp [create_participation_records]
    · exact gather_evaluations_length _ _ _ _ s hsmem rfl
  · intro hone
    rw [hrun_sel] at hone
    obtain ⟨a, ha⟩ := List.length_eq_one.mp hone
    have hsa : s = a := by
      have := hsmem
      rw [ha] at this
      simpa using this
    subst hsa
    have hempty : (make_decision_with orch request fw s.executive).evaluations = [] := by
      rw [hrun_evals, ha]
      simp [gather_evaluations, List.filter]
    refine ⟨hempty, ?_⟩
    rw [hempty]
    rfl

/-- Witness for C10 on the one-executive sample orchestrator: the evaluation
set is empty and the support metrics are all zero. -/
theorem lead_excluded_spec_witness :
    ∃ r, make_decision_run sample_orchestrator sample_request = some r
      ∧ r.evaluations = []
      ∧ calculate_support_metrics r.evaluations r.participating_execs
        = zero_support_metrics := by
  cases h : make_decision_run sample_orchestrator sample_request with
  | none =>
    exfalso
    unfold make_decision_run at h
    rw [sample_framework_resolves, sample_lead_resolves] at h
    cases h
  | some r =>
    have hx := (lead_excluded_spec sample_orchestrator sample_request r h).2.2.2.2
    obtain ⟨fw, lead, hfw, hld, hreq⟩ := make_decision_run_some _ _ _ h
    have hone : r.selected_executives.length = 1 := by
      rw [hreq]
      show (select_relevant_executives sample_orchestrator sample_request).length = 1
      simp [select_relevant_executives, sample_orchestrator, sample_request]
    exact ⟨r, rfl, (hx hone).1, (hx hone).2⟩
